import Mathlib

/-! Verification development for the `keyboard` package (src/keyboard.go)

A shallow embedding of the key catalog (`getKeyHex`), the character and
unicode resolution helpers, the input injector (`KeyDown`, `KeyUp`,
`unicodeDown`, `unicodeUp`) and the sequencer (`Type`, `Tap`, `Hotkey`).

Side effects are made explicit: every call of `win.SendInput` and of
`time.Sleep` appends one `Event` to a trace, in program order.
Machine integers are `Nat`/`Int` with explicit reductions modulo `2^w`.
-/

namespace keyboard

/-! ## Key catalog -/

/-- Go type Key (an int); the constants below are the iota block KEY_CANCEL .. KEY_OEM_CLEAR. -/
abbrev Key := Int

def KEY_CANCEL : Key := 0
def KEY_XBUTTON1 : Key := 1
def KEY_XBUTTON2 : Key := 2
def KEY_BACK : Key := 3
def KEY_TAB : Key := 4
def KEY_CLEAR : Key := 5
def KEY_RETURN : Key := 6
def KEY_SHIFT : Key := 7
def KEY_CONTROL : Key := 8
def KEY_MENU : Key := 9
def KEY_PAUSE : Key := 10
def KEY_CAPITAL : Key := 11
def KEY_KANA : Key := 12
def KEY_HANGUL : Key := 13
def KEY_IME_ON : Key := 14
def KEY_JUNJA : Key := 15
def KEY_FINAL : Key := 16
def KEY_HANJA : Key := 17
def KEY_KANJI : Key := 18
def KEY_IME_OFF : Key := 19
def KEY_ESCAPE : Key := 20
def KEY_CONVERT : Key := 21
def KEY_NONCONVERT : Key := 22
def KEY_ACCEPT : Key := 23
def KEY_MODECHANGE : Key := 24
def KEY_SPACE : Key := 25
def KEY_PRIOR : Key := 26
def KEY_NEXT : Key := 27
def KEY_END : Key := 28
def KEY_HOME : Key := 29
def KEY_LEFT : Key := 30
def KEY_UP : Key := 31
def KEY_RIGHT : Key := 32
def KEY_DOWN : Key := 33
def KEY_SELECT : Key := 34
def KEY_PRINT : Key := 35
def KEY_EXECUTE : Key := 36
def KEY_SNAPSHOT : Key := 37
def KEY_INSERT : Key := 38
def KEY_DELETE : Key := 39
def KEY_HELP : Key := 40
def KEY_0 : Key := 41
def KEY_1 : Key := 42
def KEY_2 : Key := 43
def KEY_3 : Key := 44
def KEY_4 : Key := 45
def KEY_5 : Key := 46
def KEY_6 : Key := 47
def KEY_7 : Key := 48
def KEY_8 : Key := 49
def KEY_9 : Key := 50
def KEY_A : Key := 51
def KEY_B : Key := 52
def KEY_C : Key := 53
def KEY_D : Key := 54
def KEY_E : Key := 55
def KEY_F : Key := 56
def KEY_G : Key := 57
def KEY_H : Key := 58
def KEY_I : Key := 59
def KEY_J : Key := 60
def KEY_K : Key := 61
def KEY_L : Key := 62
def KEY_M : Key := 63
def KEY_N : Key := 64
def KEY_O : Key := 65
def KEY_P : Key := 66
def KEY_Q : Key := 67
def KEY_R : Key := 68
def KEY_S : Key := 69
def KEY_T : Key := 70
def KEY_U : Key := 71
def KEY_V : Key := 72
def KEY_W : Key := 73
def KEY_X : Key := 74
def KEY_Y : Key := 75
def KEY_Z : Key := 76
def KEY_LWIN : Key := 77
def KEY_RWIN : Key := 78
def KEY_APPS : Key := 79
def KEY_SLEEP : Key := 80
def KEY_NUMPAD0 : Key := 81
def KEY_NUMPAD1 : Key := 82
def KEY_NUMPAD2 : Key := 83
def KEY_NUMPAD3 : Key := 84
def KEY_NUMPAD4 : Key := 85
def KEY_NUMPAD5 : Key := 86
def KEY_NUMPAD6 : Key := 87
def KEY_NUMPAD7 : Key := 88
def KEY_NUMPAD8 : Key := 89
def KEY_NUMPAD9 : Key := 90
def KEY_MULTIPLY : Key := 91
def KEY_ADD : Key := 92
def KEY_SEPARATOR : Key := 93
def KEY_SUBTRACT : Key := 94
def KEY_DECIMAL : Key := 95
def KEY_DIVIDE : Key := 96
def KEY_F1 : Key := 97
def KEY_F2 : Key := 98
def KEY_F3 : Key := 99
def KEY_F4 : Key := 100
def KEY_F5 : Key := 101
def KEY_F6 : Key := 102
def KEY_F7 : Key := 103
def KEY_F8 : Key := 104
def KEY_F9 : Key := 105
def KEY_F10 : Key := 106
def KEY_F11 : Key := 107
def KEY_F12 : Key := 108
def KEY_F13 : Key := 109
def KEY_F14 : Key := 110
def KEY_F15 : Key := 111
def KEY_F16 : Key := 112
def KEY_F17 : Key := 113
def KEY_F18 : Key := 114
def KEY_F19 : Key := 115
def KEY_F20 : Key := 116
def KEY_F21 : Key := 117
def KEY_F22 : Key := 118
def KEY_F23 : Key := 119
def KEY_F24 : Key := 120
def KEY_NUMLOCK : Key := 121
def KEY_SCROLL : Key := 122
def KEY_LSHIFT : Key := 123
def KEY_RSHIFT : Key := 124
def KEY_LCONTROL : Key := 125
def KEY_RCONTROL : Key := 126
def KEY_LMENU : Key := 127
def KEY_RMENU : Key := 128
def KEY_BROWSER_BACK : Key := 129
def KEY_BROWSER_FORWARD : Key := 130
def KEY_BROWSER_REFRESH : Key := 131
def KEY_BROWSER_STOP : Key := 132
def KEY_BROWSER_SEARCH : Key := 133
def KEY_BROWSER_FAVORITES : Key := 134
def KEY_BROWSER_HOME : Key := 135
def KEY_VOLUME_MUTE : Key := 136
def KEY_VOLUME_DOWN : Key := 137
def KEY_VOLUME_UP : Key := 138
def KEY_MEDIA_NEXT_TRACK : Key := 139
def KEY_MEDIA_PREV_TRACK : Key := 140
def KEY_MEDIA_STOP : Key := 141
def KEY_MEDIA_PLAY_PAUSE : Key := 142
def KEY_LAUNCH_MAIL : Key := 143
def KEY_LAUNCH_MEDIA_SELECT : Key := 144
def KEY_LAUNCH_APP1 : Key := 145
def KEY_LAUNCH_APP2 : Key := 146
def KEY_OEM_1 : Key := 147
def KEY_OEM_PLUS : Key := 148
def KEY_OEM_COMMA : Key := 149
def KEY_OEM_MINUS : Key := 150
def KEY_OEM_PERIOD : Key := 151
def KEY_OEM_2 : Key := 152
def KEY_OEM_3 : Key := 153
def KEY_OEM_4 : Key := 154
def KEY_OEM_5 : Key := 155
def KEY_OEM_6 : Key := 156
def KEY_OEM_7 : Key := 157
def KEY_OEM_8 : Key := 158
def KEY_OEM_102 : Key := 159
def KEY_PROCESSKEY : Key := 160
def KEY_ATTN : Key := 161
def KEY_CRSEL : Key := 162
def KEY_EXSEL : Key := 163
def KEY_EREOF : Key := 164
def KEY_PLAY : Key := 165
def KEY_ZOOM : Key := 166
def KEY_NONAME : Key := 167
def KEY_PA1 : Key := 168
def KEY_OEM_CLEAR : Key := 169

/-- The arms of the `switch key` statement of `getKeyHex`, in source order:
`(c, v)` stands for `case c: res = v`. -/
def getKeyHexCases : List (Key × Nat) :=
  [(KEY_CANCEL, 0x03),
   (KEY_XBUTTON1, 0x05),
   (KEY_XBUTTON2, 0x06),
   (KEY_BACK, 0x08),
   (KEY_TAB, 0x09),
   (KEY_CLEAR, 0x0C),
   (KEY_RETURN, 0x0D),
   (KEY_SHIFT, 0x10),
   (KEY_CONTROL, 0x11),
   (KEY_MENU, 0x12),
   (KEY_PAUSE, 0x13),
   (KEY_CAPITAL, 0x14),
   (KEY_KANA, 0x15),
   (KEY_HANGUL, 0x15),
   (KEY_IME_ON, 0x16),
   (KEY_JUNJA, 0x17),
   (KEY_FINAL, 0x18),
   (KEY_HANJA, 0x19),
   (KEY_KANJI, 0x19),
   (KEY_IME_OFF, 0x1A),
   (KEY_ESCAPE, 0x1B),
   (KEY_CONVERT, 0x1C),
   (KEY_NONCONVERT, 0x1D),
   (KEY_ACCEPT, 0x1E),
   (KEY_MODECHANGE, 0x1F),
   (KEY_SPACE, 0x20),
   (KEY_PRIOR, 0x21),
   (KEY_NEXT, 0x22),
   (KEY_END, 0x23),
   (KEY_HOME, 0x24),
   (KEY_LEFT, 0x25),
   (KEY_UP, 0x26),
   (KEY_RIGHT, 0x27),
   (KEY_DOWN, 0x28),
   (KEY_SELECT, 0x29),
   (KEY_PRINT, 0x2A),
   (KEY_EXECUTE, 0x2B),
   (KEY_SNAPSHOT, 0x2C),
   (KEY_INSERT, 0x2D),
   (KEY_DELETE, 0x2E),
   (KEY_HELP, 0x2F),
   (KEY_0, 0x30),
   (KEY_1, 0x31),
   (KEY_2, 0x32),
   (KEY_3, 0x33),
   (KEY_4, 0x34),
   (KEY_5, 0x35),
   (KEY_6, 0x36),
   (KEY_7, 0x37),
   (KEY_8, 0x38),
   (KEY_9, 0x39),
   (KEY_A, 0x41),
   (KEY_B, 0x42),
   (KEY_C, 0x43),
   (KEY_D, 0x44),
   (KEY_E, 0x45),
   (KEY_F, 0x46),
   (KEY_G, 0x47),
   (KEY_H, 0x48),
   (KEY_I, 0x49),
   (KEY_J, 0x4A),
   (KEY_K, 0x4B),
   (KEY_L, 0x4C),
   (KEY_M, 0x4D),
   (KEY_N, 0x4E),
   (KEY_O, 0x4F),
   (KEY_P, 0x50),
   (KEY_Q, 0x51),
   (KEY_R, 0x52),
   (KEY_S, 0x53),
   (KEY_T, 0x54),
   (KEY_U, 0x55),
   (KEY_V, 0x56),
   (KEY_W, 0x57),
   (KEY_X, 0x58),
   (KEY_Y, 0x59),
   (KEY_Z, 0x5A),
   (KEY_LWIN, 0x5B),
   (KEY_RWIN, 0x5C),
   (KEY_APPS, 0x5D),
   (KEY_SLEEP, 0x5F),
   (KEY_NUMPAD0, 0x60),
   (KEY_NUMPAD1, 0x61),
   (KEY_NUMPAD2, 0x62),
   (KEY_NUMPAD3, 0x63),
   (KEY_NUMPAD4, 0x64),
   (KEY_NUMPAD5, 0x65),
   (KEY_NUMPAD6, 0x66),
   (KEY_NUMPAD7, 0x67),
   (KEY_NUMPAD8, 0x68),
   (KEY_NUMPAD9, 0x69),
   (KEY_MULTIPLY, 0x6A),
   (KEY_ADD, 0x6B),
   (KEY_SEPARATOR, 0x6C),
   (KEY_SUBTRACT, 0x6D),
   (KEY_DECIMAL, 0x6E),
   (KEY_DIVIDE, 0x6F),
   (KEY_F1, 0x70),
   (KEY_F2, 0x71),
   (KEY_F3, 0x72),
   (KEY_F4, 0x73),
   (KEY_F5, 0x74),
   (KEY_F6, 0x75),
   (KEY_F7, 0x76),
   (KEY_F8, 0x77),
   (KEY_F9, 0x78),
   (KEY_F10, 0x79),
   (KEY_F11, 0x7A),
   (KEY_F12, 0x7B),
   (KEY_F13, 0x7C),
   (KEY_F14, 0x7D),
   (KEY_F15, 0x7E),
   (KEY_F16, 0x7F),
   (KEY_F17, 0x80),
   (KEY_F18, 0x81),
   (KEY_F19, 0x82),
   (KEY_F20, 0x83),
   (KEY_F21, 0x84),
   (KEY_F22, 0x85),
   (KEY_F23, 0x86),
   (KEY_F24, 0x87),
   (KEY_NUMLOCK, 0x90),
   (KEY_SCROLL, 0x91),
   (KEY_LSHIFT, 0xA0),
   (KEY_RSHIFT, 0xA1),
   (KEY_LCONTROL, 0xA2),
   (KEY_RCONTROL, 0xA3),
   (KEY_LMENU, 0xA4),
   (KEY_RMENU, 0xA5),
   (KEY_BROWSER_BACK, 0xA6),
   (KEY_BROWSER_FORWARD, 0xA7),
   (KEY_BROWSER_REFRESH, 0xA8),
   (KEY_BROWSER_STOP, 0xA9),
   (KEY_BROWSER_SEARCH, 0xAA),
   (KEY_BROWSER_FAVORITES, 0xAB),
   (KEY_BROWSER_HOME, 0xAC),
   (KEY_VOLUME_MUTE, 0xAD),
   (KEY_VOLUME_DOWN, 0xAE),
   (KEY_VOLUME_UP, 0xAF),
   (KEY_MEDIA_NEXT_TRACK, 0xB0),
   (KEY_MEDIA_PREV_TRACK, 0xB1),
   (KEY_MEDIA_STOP, 0xB2),
   (KEY_MEDIA_PLAY_PAUSE, 0xB3),
   (KEY_LAUNCH_MAIL, 0xB4),
   (KEY_LAUNCH_MEDIA_SELECT, 0xB5),
   (KEY_LAUNCH_APP1, 0xB6),
   (KEY_LAUNCH_APP2, 0xB7),
   (KEY_OEM_1, 0xBA),
   (KEY_OEM_PLUS, 0xBB),
   (KEY_OEM_COMMA, 0xBC),
   (KEY_OEM_MINUS, 0xBD),
   (KEY_OEM_PERIOD, 0xBE),
   (KEY_OEM_2, 0xBF),
   (KEY_OEM_3, 0xC0),
   (KEY_OEM_4, 0xDB),
   (KEY_OEM_5, 0xDC),
   (KEY_OEM_6, 0xDD),
   (KEY_OEM_7, 0xDE),
   (KEY_OEM_8, 0xDF),
   (KEY_OEM_102, 0xE2),
   (KEY_PROCESSKEY, 0xE5),
   (KEY_ATTN, 0xF6),
   (KEY_CRSEL, 0xF7),
   (KEY_EXSEL, 0xF8),
   (KEY_EREOF, 0xF9),
   (KEY_PLAY, 0xFA),
   (KEY_ZOOM, 0xFB),
   (KEY_NONAME, 0xFC),
   (KEY_PA1, 0xFD),
   (KEY_OEM_CLEAR, 0xFE)]

/-- Execution of a Go `switch` over constant cases without fallthrough: the
first arm whose constant equals `key` assigns `res`; when no arm matches `res`
keeps the value it had before the switch. -/
def runSwitch (res : Nat) (key : Key) : List (Key × Nat) → Nat
  | [] => res
  | (c, v) :: arms => if key = c then v else runSwitch res key arms

/-- Source `getKeyHex`: `var res uint16 = 0; switch key { ... }; return res`. -/
def getKeyHex (key : Key) : Nat :=
  runSwitch 0 key getKeyHexCases

/-! ### Reference numbering

The virtual-key codes of the host OS as its documentation (winuser.h) lists
them, under their documented names `VK_*`.  This table is the specification
side of the catalog; it is written from the documentation, not from
`getKeyHex`. -/

def VK_CANCEL : Nat := 0x03
def VK_XBUTTON1 : Nat := 0x05
def VK_XBUTTON2 : Nat := 0x06
def VK_BACK : Nat := 0x08
def VK_TAB : Nat := 0x09
def VK_CLEAR : Nat := 0x0C
def VK_RETURN : Nat := 0x0D
def VK_SHIFT : Nat := 0x10
def VK_CONTROL : Nat := 0x11
def VK_MENU : Nat := 0x12
def VK_PAUSE : Nat := 0x13
def VK_CAPITAL : Nat := 0x14
def VK_KANA : Nat := 0x15
def VK_HANGUL : Nat := 0x15
def VK_IME_ON : Nat := 0x16
def VK_JUNJA : Nat := 0x17
def VK_FINAL : Nat := 0x18
def VK_HANJA : Nat := 0x19
def VK_KANJI : Nat := 0x19
def VK_IME_OFF : Nat := 0x1A
def VK_ESCAPE : Nat := 0x1B
def VK_CONVERT : Nat := 0x1C
def VK_NONCONVERT : Nat := 0x1D
def VK_ACCEPT : Nat := 0x1E
def VK_MODECHANGE : Nat := 0x1F
def VK_SPACE : Nat := 0x20
def VK_PRIOR : Nat := 0x21
def VK_NEXT : Nat := 0x22
def VK_END : Nat := 0x23
def VK_HOME : Nat := 0x24
def VK_LEFT : Nat := 0x25
def VK_UP : Nat := 0x26
def VK_RIGHT : Nat := 0x27
def VK_DOWN : Nat := 0x28
def VK_SELECT : Nat := 0x29
def VK_PRINT : Nat := 0x2A
def VK_EXECUTE : Nat := 0x2B
def VK_SNAPSHOT : Nat := 0x2C
def VK_INSERT : Nat := 0x2D
def VK_DELETE : Nat := 0x2E
def VK_HELP : Nat := 0x2F
def VK_0 : Nat := 0x30
def VK_1 : Nat := 0x31
def VK_2 : Nat := 0x32
def VK_3 : Nat := 0x33
def VK_4 : Nat := 0x34
def VK_5 : Nat := 0x35
def VK_6 : Nat := 0x36
def VK_7 : Nat := 0x37
def VK_8 : Nat := 0x38
def VK_9 : Nat := 0x39
def VK_A : Nat := 0x41
def VK_B : Nat := 0x42
def VK_C : Nat := 0x43
def VK_D : Nat := 0x44
def VK_E : Nat := 0x45
def VK_F : Nat := 0x46
def VK_G : Nat := 0x47
def VK_H : Nat := 0x48
def VK_I : Nat := 0x49
def VK_J : Nat := 0x4A
def VK_K : Nat := 0x4B
def VK_L : Nat := 0x4C
def VK_M : Nat := 0x4D
def VK_N : Nat := 0x4E
def VK_O : Nat := 0x4F
def VK_P : Nat := 0x50
def VK_Q : Nat := 0x51
def VK_R : Nat := 0x52
def VK_S : Nat := 0x53
def VK_T : Nat := 0x54
def VK_U : Nat := 0x55
def VK_V : Nat := 0x56
def VK_W : Nat := 0x57
def VK_X : Nat := 0x58
def VK_Y : Nat := 0x59
def VK_Z : Nat := 0x5A
def VK_LWIN : Nat := 0x5B
def VK_RWIN : Nat := 0x5C
def VK_APPS : Nat := 0x5D
def VK_SLEEP : Nat := 0x5F
def VK_NUMPAD0 : Nat := 0x60
def VK_NUMPAD1 : Nat := 0x61
def VK_NUMPAD2 : Nat := 0x62
def VK_NUMPAD3 : Nat := 0x63
def VK_NUMPAD4 : Nat := 0x64
def VK_NUMPAD5 : Nat := 0x65
def VK_NUMPAD6 : Nat := 0x66
def VK_NUMPAD7 : Nat := 0x67
def VK_NUMPAD8 : Nat := 0x68
def VK_NUMPAD9 : Nat := 0x69
def VK_MULTIPLY : Nat := 0x6A
def VK_ADD : Nat := 0x6B
def VK_SEPARATOR : Nat := 0x6C
def VK_SUBTRACT : Nat := 0x6D
def VK_DECIMAL : Nat := 0x6E
def VK_DIVIDE : Nat := 0x6F
def VK_F1 : Nat := 0x70
def VK_F2 : Nat := 0x71
def VK_F3 : Nat := 0x72
def VK_F4 : Nat := 0x73
def VK_F5 : Nat := 0x74
def VK_F6 : Nat := 0x75
def VK_F7 : Nat := 0x76
def VK_F8 : Nat := 0x77
def VK_F9 : Nat := 0x78
def VK_F10 : Nat := 0x79
def VK_F11 : Nat := 0x7A
def VK_F12 : Nat := 0x7B
def VK_F13 : Nat := 0x7C
def VK_F14 : Nat := 0x7D
def VK_F15 : Nat := 0x7E
def VK_F16 : Nat := 0x7F
def VK_F17 : Nat := 0x80
def VK_F18 : Nat := 0x81
def VK_F19 : Nat := 0x82
def VK_F20 : Nat := 0x83
def VK_F21 : Nat := 0x84
def VK_F22 : Nat := 0x85
def VK_F23 : Nat := 0x86
def VK_F24 : Nat := 0x87
def VK_NUMLOCK : Nat := 0x90
def VK_SCROLL : Nat := 0x91
def VK_LSHIFT : Nat := 0xA0
def VK_RSHIFT : Nat := 0xA1
def VK_LCONTROL : Nat := 0xA2
def VK_RCONTROL : Nat := 0xA3
def VK_LMENU : Nat := 0xA4
def VK_RMENU : Nat := 0xA5
def VK_BROWSER_BACK : Nat := 0xA6
def VK_BROWSER_FORWARD : Nat := 0xA7
def VK_BROWSER_REFRESH : Nat := 0xA8
def VK_BROWSER_STOP : Nat := 0xA9
def VK_BROWSER_SEARCH : Nat := 0xAA
def VK_BROWSER_FAVORITES : Nat := 0xAB
def VK_BROWSER_HOME : Nat := 0xAC
def VK_VOLUME_MUTE : Nat := 0xAD
def VK_VOLUME_DOWN : Nat := 0xAE
def VK_VOLUME_UP : Nat := 0xAF
def VK_MEDIA_NEXT_TRACK : Nat := 0xB0
def VK_MEDIA_PREV_TRACK : Nat := 0xB1
def VK_MEDIA_STOP : Nat := 0xB2
def VK_MEDIA_PLAY_PAUSE : Nat := 0xB3
def VK_LAUNCH_MAIL : Nat := 0xB4
def VK_LAUNCH_MEDIA_SELECT : Nat := 0xB5
def VK_LAUNCH_APP1 : Nat := 0xB6
def VK_LAUNCH_APP2 : Nat := 0xB7
def VK_OEM_1 : Nat := 0xBA
def VK_OEM_PLUS : Nat := 0xBB
def VK_OEM_COMMA : Nat := 0xBC
def VK_OEM_MINUS : Nat := 0xBD
def VK_OEM_PERIOD : Nat := 0xBE
def VK_OEM_2 : Nat := 0xBF
def VK_OEM_3 : Nat := 0xC0
def VK_OEM_4 : Nat := 0xDB
def VK_OEM_5 : Nat := 0xDC
def VK_OEM_6 : Nat := 0xDD
def VK_OEM_7 : Nat := 0xDE
def VK_OEM_8 : Nat := 0xDF
def VK_OEM_102 : Nat := 0xE2
def VK_PROCESSKEY : Nat := 0xE5
def VK_ATTN : Nat := 0xF6
def VK_CRSEL : Nat := 0xF7
def VK_EXSEL : Nat := 0xF8
def VK_EREOF : Nat := 0xF9
def VK_PLAY : Nat := 0xFA
def VK_ZOOM : Nat := 0xFB
def VK_NONAME : Nat := 0xFC
def VK_PA1 : Nat := 0xFD
def VK_OEM_CLEAR : Nat := 0xFE

/-- The documented code of each enumerated key constant: `KEY_X` is paired
with `VK_X`. -/
def documentedVK : List (Key × Nat) :=
  [(KEY_CANCEL, VK_CANCEL),
   (KEY_XBUTTON1, VK_XBUTTON1),
   (KEY_XBUTTON2, VK_XBUTTON2),
   (KEY_BACK, VK_BACK),
   (KEY_TAB, VK_TAB),
   (KEY_CLEAR, VK_CLEAR),
   (KEY_RETURN, VK_RETURN),
   (KEY_SHIFT, VK_SHIFT),
   (KEY_CONTROL, VK_CONTROL),
   (KEY_MENU, VK_MENU),
   (KEY_PAUSE, VK_PAUSE),
   (KEY_CAPITAL, VK_CAPITAL),
   (KEY_KANA, VK_KANA),
   (KEY_HANGUL, VK_HANGUL),
   (KEY_IME_ON, VK_IME_ON),
   (KEY_JUNJA, VK_JUNJA),
   (KEY_FINAL, VK_FINAL),
   (KEY_HANJA, VK_HANJA),
   (KEY_KANJI, VK_KANJI),
   (KEY_IME_OFF, VK_IME_OFF),
   (KEY_ESCAPE, VK_ESCAPE),
   (KEY_CONVERT, VK_CONVERT),
   (KEY_NONCONVERT, VK_NONCONVERT),
   (KEY_ACCEPT, VK_ACCEPT),
   (KEY_MODECHANGE, VK_MODECHANGE),
   (KEY_SPACE, VK_SPACE),
   (KEY_PRIOR, VK_PRIOR),
   (KEY_NEXT, VK_NEXT),
   (KEY_END, VK_END),
   (KEY_HOME, VK_HOME),
   (KEY_LEFT, VK_LEFT),
   (KEY_UP, VK_UP),
   (KEY_RIGHT, VK_RIGHT),
   (KEY_DOWN, VK_DOWN),
   (KEY_SELECT, VK_SELECT),
   (KEY_PRINT, VK_PRINT),
   (KEY_EXECUTE, VK_EXECUTE),
   (KEY_SNAPSHOT, VK_SNAPSHOT),
   (KEY_INSERT, VK_INSERT),
   (KEY_DELETE, VK_DELETE),
   (KEY_HELP, VK_HELP),
   (KEY_0, VK_0),
   (KEY_1, VK_1),
   (KEY_2, VK_2),
   (KEY_3, VK_3),
   (KEY_4, VK_4),
   (KEY_5, VK_5),
   (KEY_6, VK_6),
   (KEY_7, VK_7),
   (KEY_8, VK_8),
   (KEY_9, VK_9),
   (KEY_A, VK_A),
   (KEY_B, VK_B),
   (KEY_C, VK_C),
   (KEY_D, VK_D),
   (KEY_E, VK_E),
   (KEY_F, VK_F),
   (KEY_G, VK_G),
   (KEY_H, VK_H),
   (KEY_I, VK_I),
   (KEY_J, VK_J),
   (KEY_K, VK_K),
   (KEY_L, VK_L),
   (KEY_M, VK_M),
   (KEY_N, VK_N),
   (KEY_O, VK_O),
   (KEY_P, VK_P),
   (KEY_Q, VK_Q),
   (KEY_R, VK_R),
   (KEY_S, VK_S),
   (KEY_T, VK_T),
   (KEY_U, VK_U),
   (KEY_V, VK_V),
   (KEY_W, VK_W),
   (KEY_X, VK_X),
   (KEY_Y, VK_Y),
   (KEY_Z, VK_Z),
   (KEY_LWIN, VK_LWIN),
   (KEY_RWIN, VK_RWIN),
   (KEY_APPS, VK_APPS),
   (KEY_SLEEP, VK_SLEEP),
   (KEY_NUMPAD0, VK_NUMPAD0),
   (KEY_NUMPAD1, VK_NUMPAD1),
   (KEY_NUMPAD2, VK_NUMPAD2),
   (KEY_NUMPAD3, VK_NUMPAD3),
   (KEY_NUMPAD4, VK_NUMPAD4),
   (KEY_NUMPAD5, VK_NUMPAD5),
   (KEY_NUMPAD6, VK_NUMPAD6),
   (KEY_NUMPAD7, VK_NUMPAD7),
   (KEY_NUMPAD8, VK_NUMPAD8),
   (KEY_NUMPAD9, VK_NUMPAD9),
   (KEY_MULTIPLY, VK_MULTIPLY),
   (KEY_ADD, VK_ADD),
   (KEY_SEPARATOR, VK_SEPARATOR),
   (KEY_SUBTRACT, VK_SUBTRACT),
   (KEY_DECIMAL, VK_DECIMAL),
   (KEY_DIVIDE, VK_DIVIDE),
   (KEY_F1, VK_F1),
   (KEY_F2, VK_F2),
   (KEY_F3, VK_F3),
   (KEY_F4, VK_F4),
   (KEY_F5, VK_F5),
   (KEY_F6, VK_F6),
   (KEY_F7, VK_F7),
   (KEY_F8, VK_F8),
   (KEY_F9, VK_F9),
   (KEY_F10, VK_F10),
   (KEY_F11, VK_F11),
   (KEY_F12, VK_F12),
   (KEY_F13, VK_F13),
   (KEY_F14, VK_F14),
   (KEY_F15, VK_F15),
   (KEY_F16, VK_F16),
   (KEY_F17, VK_F17),
   (KEY_F18, VK_F18),
   (KEY_F19, VK_F19),
   (KEY_F20, VK_F20),
   (KEY_F21, VK_F21),
   (KEY_F22, VK_F22),
   (KEY_F23, VK_F23),
   (KEY_F24, VK_F24),
   (KEY_NUMLOCK, VK_NUMLOCK),
   (KEY_SCROLL, VK_SCROLL),
   (KEY_LSHIFT, VK_LSHIFT),
   (KEY_RSHIFT, VK_RSHIFT),
   (KEY_LCONTROL, VK_LCONTROL),
   (KEY_RCONTROL, VK_RCONTROL),
   (KEY_LMENU, VK_LMENU),
   (KEY_RMENU, VK_RMENU),
   (KEY_BROWSER_BACK, VK_BROWSER_BACK),
   (KEY_BROWSER_FORWARD, VK_BROWSER_FORWARD),
   (KEY_BROWSER_REFRESH, VK_BROWSER_REFRESH),
   (KEY_BROWSER_STOP, VK_BROWSER_STOP),
   (KEY_BROWSER_SEARCH, VK_BROWSER_SEARCH),
   (KEY_BROWSER_FAVORITES, VK_BROWSER_FAVORITES),
   (KEY_BROWSER_HOME, VK_BROWSER_HOME),
   (KEY_VOLUME_MUTE, VK_VOLUME_MUTE),
   (KEY_VOLUME_DOWN, VK_VOLUME_DOWN),
   (KEY_VOLUME_UP, VK_VOLUME_UP),
   (KEY_MEDIA_NEXT_TRACK, VK_MEDIA_NEXT_TRACK),
   (KEY_MEDIA_PREV_TRACK, VK_MEDIA_PREV_TRACK),
   (KEY_MEDIA_STOP, VK_MEDIA_STOP),
   (KEY_MEDIA_PLAY_PAUSE, VK_MEDIA_PLAY_PAUSE),
   (KEY_LAUNCH_MAIL, VK_LAUNCH_MAIL),
   (KEY_LAUNCH_MEDIA_SELECT, VK_LAUNCH_MEDIA_SELECT),
   (KEY_LAUNCH_APP1, VK_LAUNCH_APP1),
   (KEY_LAUNCH_APP2, VK_LAUNCH_APP2),
   (KEY_OEM_1, VK_OEM_1),
   (KEY_OEM_PLUS, VK_OEM_PLUS),
   (KEY_OEM_COMMA, VK_OEM_COMMA),
   (KEY_OEM_MINUS, VK_OEM_MINUS),
   (KEY_OEM_PERIOD, VK_OEM_PERIOD),
   (KEY_OEM_2, VK_OEM_2),
   (KEY_OEM_3, VK_OEM_3),
   (KEY_OEM_4, VK_OEM_4),
   (KEY_OEM_5, VK_OEM_5),
   (KEY_OEM_6, VK_OEM_6),
   (KEY_OEM_7, VK_OEM_7),
   (KEY_OEM_8, VK_OEM_8),
   (KEY_OEM_102, VK_OEM_102),
   (KEY_PROCESSKEY, VK_PROCESSKEY),
   (KEY_ATTN, VK_ATTN),
   (KEY_CRSEL, VK_CRSEL),
   (KEY_EXSEL, VK_EXSEL),
   (KEY_EREOF, VK_EREOF),
   (KEY_PLAY, VK_PLAY),
   (KEY_ZOOM, VK_ZOOM),
   (KEY_NONAME, VK_NONAME),
   (KEY_PA1, VK_PA1),
   (KEY_OEM_CLEAR, VK_OEM_CLEAR)]

/-- Documented virtual-key code of a key constant, `none` for a value that is
not an enumerated constant. -/
def documentedCode (key : Key) : Option Nat :=
  (documentedVK.find? (fun e => e.1 = key)).map (fun e => e.2)

/-! ## Machine integers -/

/-- Go conversion `uint8(x)` of a signed integer: the value modulo `2^8`. -/
def toUint8 (x : Int) : Nat := (x % 256).toNat

/-- Go conversion `uint16(x)` of a signed integer: the value modulo `2^16`. -/
def toUint16 (x : Int) : Nat := (x % 65536).toNat

/-- Go conversion `int16(ret)` of a `uintptr`: the low 16 bits, read as a
two's complement number. -/
def toInt16 (ret : Nat) : Int :=
  if ret % 65536 < 32768 then (ret % 65536 : Nat) else ((ret % 65536 : Nat) : Int) - 65536

/-! ## Operating system interface

The two user32 entry points are external; their raw return values (`ret`, a
`uintptr`) are parameters of the model. -/

/-- The host OS as seen by this package: the raw results of the syscalls
`GetKeyboardLayout(idThread)` and `VkKeyScanExA(ch, dwhkl)`. -/
structure OS where
  sysGetKeyboardLayout : Nat → Nat
  sysVkKeyScanExA : Nat → Nat → Nat

/-- Source `vkKeyScanExA`: `return int16(ret)`. -/
def vkKeyScanExA (os : OS) (ch : Nat) (dwhkl : Nat) : Int :=
  toInt16 (os.sysVkKeyScanExA ch dwhkl)

/-- Source `getKeyboardLayout`: `return HKL(ret)`. -/
def getKeyboardLayout (os : OS) (idThread : Nat) : Nat :=
  os.sysGetKeyboardLayout idThread

/-- An OS whose character resolver answers `ret` for every character. -/
def stubOS (ret : Nat) : OS :=
  { sysGetKeyboardLayout := fun _ => 0x04090409, sysVkKeyScanExA := fun _ _ => ret }

/-! ## Input events and traces -/

/-- Library constant `win.INPUT_KEYBOARD`. -/
def INPUT_KEYBOARD : Nat := 1
/-- Library constant `win.KEYEVENTF_KEYUP`. -/
def KEYEVENTF_KEYUP : Nat := 0x0002
/-- Library constant `win.KEYEVENTF_UNICODE`. -/
def KEYEVENTF_UNICODE : Nat := 0x0004

/-- The fields of `win.KEYBDINPUT` this package sets; a field the source leaves
out of the literal is zero. -/
structure KEYBDINPUT where
  WVk : Nat
  WScan : Nat
  DwFlags : Nat
  deriving DecidableEq, Repr

/-- The record `win.KEYBD_INPUT` handed to `win.SendInput`. -/
structure KEYBD_INPUT where
  InputType : Nat
  Ki : KEYBDINPUT
  deriving DecidableEq, Repr

/-- One observable step of the package. -/
inductive Event where
  /-- one call `win.SendInput(1, &in[0], size)` -/
  | sendInput (inp : KEYBD_INPUT)
  /-- one call `time.Sleep(ms * time.Millisecond)` -/
  | sleep (ms : Nat)
  deriving DecidableEq, Repr

/-- The steps performed so far, oldest first. -/
abbrev Trace := List Event

/-- The injected records of a trace, in order (delays dropped). -/
def injections : Trace → List KEYBD_INPUT
  | [] => []
  | Event.sendInput inp :: t => inp :: injections t
  | Event.sleep _ :: t => injections t

/-- `time.Sleep(20 * time.Millisecond)`. -/
def sleep20 (t : Trace) : Trace := t ++ [Event.sleep 20]

/-! ## Unicode helpers -/

/-- Go conversion `[]byte(string(r))` of a rune: its UTF-8 encoding, and the
encoding of U+FFFD for a value that is not a Unicode scalar value. -/
def utf8Bytes (r : Int) : List Nat :=
  if r < 0 ∨ r > 0x10FFFF ∨ (0xD800 ≤ r ∧ r ≤ 0xDFFF) then [0xEF, 0xBF, 0xBD]
  else
    let n := r.toNat
    if n ≤ 0x7F then [n]
    else if n ≤ 0x7FF then [0xC0 + n / 64, 0x80 + n % 64]
    else if n ≤ 0xFFFF then [0xE0 + n / 4096, 0x80 + n / 64 % 64, 0x80 + n % 64]
    else [0xF0 + n / 262144, 0x80 + n / 4096 % 64, 0x80 + n / 64 % 64, 0x80 + n % 64]

/-- The digit table of `encoding/hex`: `"0123456789abcdef"`. -/
def hextable (d : Nat) : Char :=
  "0123456789abcdef".toList.getD d '0'

/-- Library `hex.EncodeToString`: two lower-case digits per byte. -/
def hexEncodeToString (src : List Nat) : List Char :=
  match src with
  | [] => []
  | b :: rest => hextable (b / 16) :: hextable (b % 16) :: hexEncodeToString rest

/-- Source `getHexStringFromRune`: `hex.EncodeToString([]byte(string(h)))`. -/
def getHexStringFromRune (h : Int) : List Char :=
  hexEncodeToString (utf8Bytes h)

/-- The errors of `strconv`. -/
inductive NumError where
  | ErrSyntax
  | ErrRange
  deriving DecidableEq, Repr

/-- Digit value of one character in `strconv.ParseUint`. -/
def digitVal (c : Char) : Option Nat :=
  let lower := c.toNat ||| 0x20
  if '0' ≤ c ∧ c ≤ '9' then some (c.toNat - '0'.toNat)
  else if 'a'.toNat ≤ lower ∧ lower ≤ 'z'.toNat then some (lower - 'a'.toNat + 10)
  else none

/-- The digit loop of `strconv.ParseUint(s, base, bitSize)` for an explicit
base: `n` is the value read so far. -/
def parseUintLoop (base bitSize : Nat) : List Char → Nat → Nat × Option NumError
  | [], n => (n, none)
  | c :: rest, n =>
    match digitVal c with
    | none => (0, some NumError.ErrSyntax)
    | some d =>
      if d ≥ base then (0, some NumError.ErrSyntax)
      else if n ≥ (2 ^ 64 - 1) / base + 1 then (2 ^ bitSize - 1, some NumError.ErrRange)
      else if n * base + d ≥ 2 ^ 64 ∨ n * base + d > 2 ^ bitSize - 1 then
        (2 ^ bitSize - 1, some NumError.ErrRange)
      else parseUintLoop base bitSize rest (n * base + d)

/-- Library `strconv.ParseUint` for an explicit base (no prefix, no
underscores). -/
def parseUint (s : List Char) (base bitSize : Nat) : Nat × Option NumError :=
  if s = [] then (0, some NumError.ErrSyntax) else parseUintLoop base bitSize s 0

/-- Library `strconv.ParseInt` for an explicit base and `0 < bitSize`. -/
def parseInt (s : List Char) (base bitSize : Nat) : Int × Option NumError :=
  match s with
  | [] => (0, some NumError.ErrSyntax)
  | c :: rest =>
    let neg := decide (c = '-')
    let body := if c = '+' ∨ c = '-' then rest else s
    match parseUint body base bitSize with
    | (_, some NumError.ErrSyntax) => (0, some NumError.ErrSyntax)
    | (un, _) =>
      let cutoff := 2 ^ (bitSize - 1)
      if ¬ neg ∧ un ≥ cutoff then ((cutoff : Int) - 1, some NumError.ErrRange)
      else if neg ∧ un > cutoff then (-(cutoff : Int), some NumError.ErrRange)
      else (if neg then -(un : Int) else (un : Int), none)

/-- Source `getIntFromHexString`: `i, _ := strconv.ParseInt(h, 16, 32);
return int(i)`. -/
def getIntFromHexString (h : List Char) : Int :=
  (parseInt h 16 32).1

/-! ## Input injector -/

/-- Source `unicodeDown`. -/
def unicodeDown (char : Int) (t : Trace) : Trace :=
  let hx := getIntFromHexString (getHexStringFromRune char)
  t ++ [Event.sendInput
    { InputType := INPUT_KEYBOARD,
      Ki := { WVk := 0, WScan := toUint16 hx, DwFlags := KEYEVENTF_UNICODE } }]

/-- Source `unicodeUp`. -/
def unicodeUp (char : Int) (t : Trace) : Trace :=
  let hx := getIntFromHexString (getHexStringFromRune char)
  t ++ [Event.sendInput
    { InputType := INPUT_KEYBOARD,
      Ki := { WVk := 0, WScan := toUint16 hx,
              DwFlags := KEYEVENTF_UNICODE ||| KEYEVENTF_KEYUP } }]

/-- Source `KeyDown`. -/
def KeyDown (hx : Nat) (t : Trace) : Trace :=
  t ++ [Event.sendInput
    { InputType := INPUT_KEYBOARD, Ki := { WVk := hx, WScan := 0, DwFlags := 0 } }]

/-- Source `KeyUp`. -/
def KeyUp (hx : Nat) (t : Trace) : Trace :=
  t ++ [Event.sendInput
    { InputType := INPUT_KEYBOARD,
      Ki := { WVk := hx, WScan := 0, DwFlags := KEYEVENTF_KEYUP } }]

/-! ## Sequencer -/

/-- A value passed through a Go `interface{}` parameter, with its dynamic
type: a `Key`, an `int32` (a rune, the type of a character literal), or a
value of some other type. -/
inductive Value where
  | key (k : Key)
  | int32 (c : Int)
  | int (n : Int)
  | str (s : String)
  | nil
  deriving DecidableEq, Repr

/-- A Go `error` made by `errors.New(msg)`. -/
abbrev GoError := String

/-- Source `getKeyOrCharHex`. -/
def getKeyOrCharHex (os : OS) (key : Value) : Nat × Option GoError :=
  match key with
  | Value.key k => (getKeyHex k, none)
  | Value.int32 c =>
    let kbl := getKeyboardLayout os 0
    (toUint16 (vkKeyScanExA os (toUint8 c) kbl), none)
  | _ => (0, some "getKeyOrCharHex() can only accept characters and Keys")

/-- The runes a Go `for _, c := range text` loop yields, in order.  The loop
decodes the text into Unicode scalar values (U+FFFD for a byte that starts no
valid encoding), which is the character sequence of a `String`. -/
def rangeRunes (text : String) : List Int :=
  text.toList.map (fun c => (c.toNat : Int))

/-- The body of the loop of `Type`, run for each remaining rune. -/
def typeLoop : List Int → Trace → Trace
  | [], t => t
  | c :: rest, t => typeLoop rest (sleep20 (unicodeUp c (sleep20 (unicodeDown c t))))

/-- Source `keyboard.Type` (named `typeText` here, `Type` being reserved). -/
def typeText (text : String) (t : Trace) : Trace :=
  typeLoop (rangeRunes text) t

/-- Source `keyboard.Tap`: the trace after the call and the returned error. -/
def Tap (os : OS) (key : Value) (t : Trace) : Trace × Option GoError :=
  match key with
  | Value.key k =>
    let hx := getKeyHex k
    let t := KeyDown hx t
    let t := sleep20 t
    let t := KeyUp hx t
    let t := sleep20 t
    (t, none)
  | Value.int32 c =>
    let kbl := getKeyboardLayout os 0
    let hx := toUint16 (vkKeyScanExA os (toUint8 c) kbl)
    let shift_pressed := decide (hx &&& 0x100 = 0x100)
    let ctrl_pressed := decide (hx &&& 0x200 = 0x200)
    let alt_pressed := decide (hx &&& 0x400 = 0x400)
    let t := if shift_pressed then sleep20 (KeyDown (getKeyHex KEY_SHIFT) t) else t
    let t := if ctrl_pressed then sleep20 (KeyDown (getKeyHex KEY_CONTROL) t) else t
    let t := if alt_pressed then sleep20 (KeyDown (getKeyHex KEY_MENU) t) else t
    let t := KeyDown hx t
    let t := sleep20 t
    let t := KeyUp hx t
    let t := sleep20 t
    let t := if shift_pressed then KeyUp (getKeyHex KEY_SHIFT) t else t
    let t := if ctrl_pressed then KeyUp (getKeyHex KEY_CONTROL) t else t
    let t := if alt_pressed then KeyUp (getKeyHex KEY_MENU) t else t
    (t, none)
  | _ => (t, some "Tap() can only accept characters and Keys")

/-- Source `keyboard.Hotkey`: `none` when the call panics (`keys[0]` on an
empty slice), otherwise the trace after the call and the returned error.  The
error of `getKeyOrCharHex` and the result of the recursive call are dropped,
as in the source. -/
def Hotkey (os : OS) (keys : List Value) (t : Trace) : Option (Trace × Option GoError) :=
  match keys with
  | [] => none
  | k0 :: rest =>
    let hx := (getKeyOrCharHex os k0).1
    let t := KeyDown hx t
    let t := sleep20 t
    if (k0 :: rest).length > 1 then
      match Hotkey os rest t with
      | none => none
      | some (t, _) => some (KeyUp hx t, none)
    else some (KeyUp hx t, none)

/-! ## Observations on traces -/

/-- The record `KeyDown(hx)` injects. -/
def press (hx : Nat) : KEYBD_INPUT :=
  { InputType := INPUT_KEYBOARD, Ki := { WVk := hx, WScan := 0, DwFlags := 0 } }

/-- The record `KeyUp(hx)` injects. -/
def release (hx : Nat) : KEYBD_INPUT :=
  { InputType := INPUT_KEYBOARD, Ki := { WVk := hx, WScan := 0, DwFlags := KEYEVENTF_KEYUP } }

/-- Virtual-key codes of the key-down records of a trace, in order. -/
def pressedCodes (t : Trace) : List Nat :=
  ((injections t).filter (fun inp => inp.Ki.DwFlags &&& KEYEVENTF_KEYUP = 0)).map
    (fun inp => inp.Ki.WVk)

/-- Virtual-key codes of the key-up records of a trace, in order. -/
def releasedCodes (t : Trace) : List Nat :=
  ((injections t).filter (fun inp => inp.Ki.DwFlags &&& KEYEVENTF_KEYUP ≠ 0)).map
    (fun inp => inp.Ki.WVk)


/-- The modifier keys a resolution `hx` asks for, in the order SHIFT, CONTROL,
MENU: bit 0x100 is shift, 0x200 control, 0x400 alt. -/
def modifierCodes (hx : Nat) : List Nat :=
  (if hx &&& 0x100 = 0x100 then [0x10] else []) ++
  (if hx &&& 0x200 = 0x200 then [0x11] else []) ++
  (if hx &&& 0x400 = 0x400 then [0x12] else [])

/-- The scan code `unicodeDown` and `unicodeUp` put into the record for a
rune. -/
def unicodeScan (char : Int) : Nat :=
  toUint16 (getIntFromHexString (getHexStringFromRune char))

/-- The record `unicodeDown(char)` injects. -/
def unicodePress (char : Int) : KEYBD_INPUT :=
  { InputType := INPUT_KEYBOARD,
    Ki := { WVk := 0, WScan := unicodeScan char, DwFlags := KEYEVENTF_UNICODE } }

/-- The record `unicodeUp(char)` injects. -/
def unicodeRelease (char : Int) : KEYBD_INPUT :=
  { InputType := INPUT_KEYBOARD,
    Ki := { WVk := 0, WScan := unicodeScan char,
            DwFlags := KEYEVENTF_UNICODE ||| KEYEVENTF_KEYUP } }

/-- The code `Hotkey` presses and releases for one argument: the first result
of `getKeyOrCharHex`. -/
def hotkeyCode (os : OS) (v : Value) : Nat :=
  (getKeyOrCharHex os v).1

/-! ## Timing and recursion observations -/

/-- An event that is an injection (a call of `win.SendInput`), not a delay. -/
def isInjection : Event → Bool
  | Event.sendInput _ => true
  | Event.sleep _ => false

/-- An event that is the injection of a key-up record. -/
def isKeyUp : Event → Bool
  | Event.sendInput inp => decide (inp.Ki.DwFlags &&& KEYEVENTF_KEYUP ≠ 0)
  | Event.sleep _ => false

/-- A relation holds between every two consecutive events of a trace. -/
def allAdjacent (R : Event → Event → Bool) : Trace → Bool
  | [] => true
  | [_] => true
  | a :: b :: t => R a b && allAdjacent R (b :: t)

/-- No two injections are adjacent in the trace: consecutive injections have a
delay step between them. -/
def delaySeparated (t : Trace) : Prop :=
  allAdjacent (fun a b => !(isInjection a && isInjection b)) t = true

/-- Two injections are adjacent in the trace only when both are key-up
records. -/
def delaySeparatedUpToReleases (t : Trace) : Prop :=
  allAdjacent (fun a b => !(isInjection a && isInjection b) || (isKeyUp a && isKeyUp b)) t
    = true

/-- Every delay of the trace is the fixed one of 20 ms. -/
def fixedDelays (t : Trace) : Prop :=
  ∀ ms, Event.sleep ms ∈ t → ms = 20

instance (t : Trace) : Decidable (delaySeparated t) :=
  inferInstanceAs (Decidable (_ = true))

instance (t : Trace) : Decidable (delaySeparatedUpToReleases t) :=
  inferInstanceAs (Decidable (_ = true))

/-- The activations of `Hotkey` on `keys`, outermost first, each with the
argument list it receives: the recursion of the source, observing only the
calls.  `none` when an activation evaluates `keys[0]` on an empty list
(runtime panic). -/
def HotkeyCalls (keys : List Value) : Option (List (List Value)) :=
  match keys with
  | [] => none
  | k0 :: rest =>
    if (k0 :: rest).length > 1 then
      match HotkeyCalls rest with
      | none => none
      | some calls => some ((k0 :: rest) :: calls)
    else some [k0 :: rest]

/-! ## Helper lemmas -/

/-- A property of every `n < 170` holds of every key value between
`KEY_CANCEL` (0) and `KEY_OEM_CLEAR` (169). -/
theorem forall_enumerated (P : Int → Prop) (h : ∀ n : Nat, n < 170 → P (n : Int))
    (k : Int) (h0 : 0 ≤ k) (h1 : k ≤ 169) : P k := by
  have hk : (k.toNat : Int) = k := Int.toNat_of_nonneg h0
  have hn : k.toNat < 170 := by omega
  have := h _ hn
  rwa [hk] at this

/-- A switch none of whose arms matches leaves `res` unchanged. -/
theorem runSwitch_no_match (res : Nat) (key : Key) (arms : List (Key × Nat))
    (h : ∀ arm ∈ arms, arm.1 ≠ key) : runSwitch res key arms = res := by
  induction arms with
  | nil => rfl
  | cons arm rest ih =>
    obtain ⟨c, v⟩ := arm
    have hc : key ≠ c := fun e => h (c, v) (List.mem_cons_self _ _) e.symm
    simp only [runSwitch, if_neg hc]
    exact ih (fun a ha => h a (List.mem_cons_of_mem _ ha))

set_option maxRecDepth 100000 in
/-- Every arm of `getKeyHex` is for a constant of the enumeration. -/
theorem getKeyHexCases_range :
    ∀ arm ∈ getKeyHexCases, KEY_CANCEL ≤ arm.1 ∧ arm.1 ≤ KEY_OEM_CLEAR := by
  decide

/-! ## Key catalog theorems -/

set_option maxRecDepth 100000 in
/-- C1: for every enumerated key constant `KEY_X` (`KEY_CANCEL` through
`KEY_OEM_CLEAR`), `getKeyHex KEY_X` is the documented virtual-key code `VK_X`
of the host OS; in particular `KEY_A`, `KEY_RETURN`, `KEY_F12` give 0x41, 0x0D,
0x7B and the modifier keys used by `Tap` give 0x10, 0x11, 0x12. -/
theorem getKeyHex_eq_documented :
    (∀ k : Key, KEY_CANCEL ≤ k → k ≤ KEY_OEM_CLEAR →
        documentedCode k = some (getKeyHex k)) ∧
    getKeyHex KEY_A = 0x41 ∧ getKeyHex KEY_RETURN = 0x0D ∧ getKeyHex KEY_F12 = 0x7B ∧
    getKeyHex KEY_SHIFT = 0x10 ∧ getKeyHex KEY_CONTROL = 0x11 ∧
    getKeyHex KEY_MENU = 0x12 := by
  refine ⟨?_, by decide, by decide, by decide, by decide, by decide, by decide⟩
  intro k h0 h1
  exact forall_enumerated (fun k => documentedCode k = some (getKeyHex k))
    (by decide) k h0 h1

/-- C1 at `KEY_Z`: the key is enumerated and its code is the documented
`VK_Z`. -/
theorem getKeyHex_eq_documented_witness :
    documentedCode KEY_Z = some VK_Z ∧ getKeyHex KEY_Z = VK_Z := by
  have h := getKeyHex_eq_documented.1 KEY_Z (by decide) (by decide)
  refine ⟨by decide, ?_⟩
  have h2 : documentedCode KEY_Z = some VK_Z := by decide
  rw [h2] at h
  exact (Option.some.inj h).symm

set_option maxRecDepth 100000 in
/-- C10: `getKeyHex` is total, its result fits 16 bits, and it is 0 exactly
for the key values that are not enumerated constants (`k < KEY_CANCEL` or
`k > KEY_OEM_CLEAR`); every enumerated key has a non-zero code. -/
theorem getKeyHex_zero_iff (k : Key) :
    (∃ res : Nat, getKeyHex k = res ∧ res < 65536) ∧
    (getKeyHex k = 0 ↔ (k < KEY_CANCEL ∨ k > KEY_OEM_CLEAR)) := by
  by_cases hk : KEY_CANCEL ≤ k ∧ k ≤ KEY_OEM_CLEAR
  · have h := forall_enumerated (fun k => getKeyHex k ≠ 0 ∧ getKeyHex k < 65536)
      (by decide) k hk.1 hk.2
    refine ⟨⟨_, rfl, h.2⟩, ?_⟩
    constructor
    · intro h0
      exact absurd h0 h.1
    · rintro (hlt | hgt)
      · exact absurd hk.1 (not_le.mpr hlt)
      · exact absurd hk.2 (not_le.mpr hgt)
  · have hz : getKeyHex k = 0 := by
      apply runSwitch_no_match
      intro arm harm e
      exact hk (e ▸ getKeyHexCases_range arm harm)
    refine ⟨⟨0, hz, by decide⟩, ?_⟩
    constructor
    · intro _
      by_contra hcon
      push_neg at hcon
      exact hk hcon
    · intro _
      exact hz

/-! ## Trace lemmas -/

theorem injections_append (a b : Trace) :
    injections (a ++ b) = injections a ++ injections b := by
  induction a with
  | nil => rfl
  | cons e rest ih =>
    cases e with
    | sendInput inp => simp [injections, ih]
    | sleep ms => simp [injections, ih]

theorem injections_sleep20 (t : Trace) : injections (sleep20 t) = injections t := by
  simp [sleep20, injections_append, injections]

theorem injections_KeyDown (hx : Nat) (t : Trace) :
    injections (KeyDown hx t) = injections t ++ [press hx] := by
  simp [KeyDown, press, injections_append, injections]

theorem injections_KeyUp (hx : Nat) (t : Trace) :
    injections (KeyUp hx t) = injections t ++ [release hx] := by
  simp [KeyUp, release, injections_append, injections]

/-! ## Tap -/

/-- C9: for every `Key` value `k`, `Tap(k)` performs exactly
press(getKeyHex k), delay, release(getKeyHex k), delay (two injections of the
same code, no modifier event), after whatever happened before, and returns no
error. -/
theorem Tap_key (os : OS) (k : Key) (t : Trace) :
    Tap os (Value.key k) t =
      (t ++ [Event.sendInput (press (getKeyHex k)), Event.sleep 20,
             Event.sendInput (release (getKeyHex k)), Event.sleep 20], none) ∧
    injections (Tap os (Value.key k) []).1 = [press (getKeyHex k), release (getKeyHex k)] := by
  constructor
  · simp [Tap, KeyDown, KeyUp, sleep20, press, release]
  · simp [Tap, KeyDown, KeyUp, sleep20, press, release, injections]

/-- C4: `Tap` returns the invalid-argument error exactly when its argument is
neither a `Key` nor a character (`int32`); then it performs no injection and
no delay (the trace is unchanged); for a `Key` or a character it returns no
error. -/
theorem Tap_error_iff (os : OS) (v : Value) (t : Trace) :
    ((Tap os v t).2 = some "Tap() can only accept characters and Keys" ↔
        ((∀ k, v ≠ Value.key k) ∧ (∀ c, v ≠ Value.int32 c))) ∧
    (((∀ k, v ≠ Value.key k) ∧ (∀ c, v ≠ Value.int32 c)) → (Tap os v t).1 = t) ∧
    (((∃ k, v = Value.key k) ∨ (∃ c, v = Value.int32 c)) → (Tap os v t).2 = none) := by
  cases v <;> simp [Tap]

/-- C4 at the string argument `"a"`: the error is returned and the trace stays
empty. -/
theorem Tap_error_iff_witness :
    Tap (stubOS 0x41) (Value.str "a") [] =
      ([], some "Tap() can only accept characters and Keys") := by
  have h := Tap_error_iff (stubOS 0x41) (Value.str "a") []
  have hne : (∀ k, Value.str "a" ≠ Value.key k) ∧ (∀ c, Value.str "a" ≠ Value.int32 c) :=
    ⟨fun _ e => Value.noConfusion e, fun _ e => Value.noConfusion e⟩
  exact Prod.ext (h.2.1 hne) (h.1.mpr hne)

/-- The injections of `Tap` on a character with resolution `hx`, delays
dropped: the presses of the required modifiers in the order SHIFT, CONTROL,
MENU, then `KeyDown(hx)`, `KeyUp(hx)` with the whole 16-bit `hx`, then the
releases of the same modifiers in the same order; the returned error is nil. -/
theorem injections_Tap_char (os : OS) (c : Int) :
    (Tap os (Value.int32 c) []).2 = none ∧
    injections (Tap os (Value.int32 c) []).1 =
      (modifierCodes (getKeyOrCharHex os (Value.int32 c)).1).map press ++
      [press (getKeyOrCharHex os (Value.int32 c)).1,
       release (getKeyOrCharHex os (Value.int32 c)).1] ++
      (modifierCodes (getKeyOrCharHex os (Value.int32 c)).1).map release := by
  have hS : getKeyHex KEY_SHIFT = 0x10 := by decide
  have hC : getKeyHex KEY_CONTROL = 0x11 := by decide
  have hM : getKeyHex KEY_MENU = 0x12 := by decide
  simp only [getKeyOrCharHex, Tap, hS, hC, hM]
  generalize toUint16 (vkKeyScanExA os (toUint8 c) (getKeyboardLayout os 0)) = hx
  refine ⟨trivial, ?_⟩
  by_cases h1 : hx &&& 0x100 = 0x100 <;> by_cases h2 : hx &&& 0x200 = 0x200 <;>
    by_cases h3 : hx &&& 0x400 = 0x400 <;>
    simp [h1, h2, h3, modifierCodes, injections_sleep20, injections_KeyDown,
      injections_KeyUp, injections, press, release]

/-- C8, the code at a failing input: with the resolver answering 0x0141 for
the character `A` (virtual-key code 0x41, shift required), `Tap` returns no
error and injects press(SHIFT), press(0x141), release(0x141), release(SHIFT),
not the claimed press(SHIFT), press(0x41), release(0x41), release(SHIFT); with
0x0741 (shift, control and alt required) it injects the modifier presses and
releases in the claimed order SHIFT, CONTROL, MENU, around press(0x741),
release(0x741) instead of press(0x41), release(0x41).  For every character the
modifier events are in the claimed order and the code pressed between them is
the whole resolution, modifier bits included. -/
theorem Tap_char_sequence_code_unmasked :
    (getKeyOrCharHex (stubOS 0x141) (Value.int32 65)).1 = 0x141 ∧
    (Tap (stubOS 0x141) (Value.int32 65) []).2 = none ∧
    injections (Tap (stubOS 0x141) (Value.int32 65) []).1 =
      [press 0x10, press 0x141, release 0x141, release 0x10] ∧
    injections (Tap (stubOS 0x141) (Value.int32 65) []).1 ≠
      [press 0x10, press 0x41, release 0x41, release 0x10] ∧
    injections (Tap (stubOS 0x741) (Value.int32 65) []).1 =
      [press 0x10, press 0x11, press 0x12, press 0x741, release 0x741,
       release 0x10, release 0x11, release 0x12] ∧
    injections (Tap (stubOS 0x741) (Value.int32 65) []).1 ≠
      [press 0x10, press 0x11, press 0x12, press 0x41, release 0x41,
       release 0x10, release 0x11, release 0x12] ∧
    (∀ (os : OS) (c : Int),
      injections (Tap os (Value.int32 c) []).1 =
        (modifierCodes (getKeyOrCharHex os (Value.int32 c)).1).map press ++
        [press (getKeyOrCharHex os (Value.int32 c)).1,
         release (getKeyOrCharHex os (Value.int32 c)).1] ++
        (modifierCodes (getKeyOrCharHex os (Value.int32 c)).1).map release) := by
  refine ⟨by decide, by decide, by decide, by decide, by decide, by decide, ?_⟩
  intro os c
  exact (injections_Tap_char os c).2

/-! ## Type -/

/-- The loop of `Type` appends, for each rune in order, press, delay, release,
delay. -/
theorem typeLoop_eq (rs : List Int) (t : Trace) :
    typeLoop rs t = t ++ rs.flatMap (fun c =>
      [Event.sendInput (unicodePress c), Event.sleep 20,
       Event.sendInput (unicodeRelease c), Event.sleep 20]) := by
  induction rs generalizing t with
  | nil => simp [typeLoop]
  | cons c rest ih =>
    simp [typeLoop, ih, unicodeDown, unicodeUp, sleep20, unicodePress, unicodeRelease,
      unicodeScan]

/-- C6: for a text with runes c1..cn, `Type` performs press(c1), delay,
release(c1), delay, ..., press(cn), delay, release(cn), delay: exactly 2n
injections, each a unicode-mode record without virtual-key code, each followed
by one delay; `Type("")` performs nothing and `Type("ab")` injects press(a),
release(a), press(b), release(b) with scan codes 97 and 98. -/
theorem typeText_trace (text : String) :
    typeText text [] = (rangeRunes text).flatMap (fun c =>
      [Event.sendInput (unicodePress c), Event.sleep 20,
       Event.sendInput (unicodeRelease c), Event.sleep 20]) ∧
    injections (typeText text []) =
      (rangeRunes text).flatMap (fun c => [unicodePress c, unicodeRelease c]) ∧
    (injections (typeText text [])).length = 2 * (rangeRunes text).length ∧
    (∀ inp ∈ injections (typeText text []),
      inp.Ki.DwFlags &&& KEYEVENTF_UNICODE = KEYEVENTF_UNICODE ∧ inp.Ki.WVk = 0) ∧
    typeText "" [] = [] ∧
    injections (typeText "ab" []) =
      [{ InputType := 1, Ki := { WVk := 0, WScan := 97, DwFlags := 4 } },
       { InputType := 1, Ki := { WVk := 0, WScan := 97, DwFlags := 6 } },
       { InputType := 1, Ki := { WVk := 0, WScan := 98, DwFlags := 4 } },
       { InputType := 1, Ki := { WVk := 0, WScan := 98, DwFlags := 6 } }] := by
  have htrace : typeText text [] = (rangeRunes text).flatMap (fun c =>
      [Event.sendInput (unicodePress c), Event.sleep 20,
       Event.sendInput (unicodeRelease c), Event.sleep 20]) := by
    simp [typeText, typeLoop_eq]
  have hinj : injections (typeText text []) =
      (rangeRunes text).flatMap (fun c => [unicodePress c, unicodeRelease c]) := by
    rw [htrace]
    induction rangeRunes text with
    | nil => rfl
    | cons c rest ih =>
      rw [List.flatMap_cons, List.flatMap_cons, injections_append, ih]
      rfl
  refine ⟨htrace, hinj, ?_, ?_, by decide, by decide⟩
  · rw [hinj]
    induction rangeRunes text with
    | nil => rfl
    | cons c rest ih => simp [ih]; omega
  · rw [hinj]
    intro inp hmem
    obtain ⟨c, _, hc⟩ := List.mem_flatMap.mp hmem
    simp only [List.mem_cons, List.mem_singleton, List.not_mem_nil, or_false] at hc
    rcases hc with rfl | rfl
    · exact ⟨by simp [unicodePress, KEYEVENTF_UNICODE], rfl⟩
    · exact ⟨by simp [unicodeRelease, KEYEVENTF_UNICODE, KEYEVENTF_KEYUP]; decide, rfl⟩

/-! ## Hotkey -/

/-- The whole trace of `Hotkey` on a non-empty list: each key is pressed and
followed by a delay, in argument order; then each key is released, the last
argument first, with no delay in between; the returned error is nil. -/
theorem Hotkey_eq (os : OS) (keys : List Value) (t : Trace) (hne : keys ≠ []) :
    Hotkey os keys t = some
      (t ++ keys.flatMap (fun v => [Event.sendInput (press (hotkeyCode os v)), Event.sleep 20])
         ++ keys.reverse.map (fun v => Event.sendInput (release (hotkeyCode os v))), none) := by
  induction keys generalizing t with
  | nil => exact absurd rfl hne
  | cons k0 rest ih =>
    cases rest with
    | nil => simp [Hotkey, KeyDown, KeyUp, sleep20, press, release, hotkeyCode]
    | cons k1 rest2 =>
      have h := ih (sleep20 (KeyDown (getKeyOrCharHex os k0).1 t)) (List.cons_ne_nil _ _)
      rw [Hotkey]
      simp only [List.length_cons, gt_iff_lt, Nat.lt_add_left_iff_pos, Nat.zero_lt_succ,
        if_true]
      rw [h]
      simp [KeyDown, KeyUp, sleep20, press, release, hotkeyCode]

/-- The injections of the trace of `Hotkey_eq`. -/
theorem injections_Hotkey (os : OS) (keys : List Value) :
    injections
      (keys.flatMap (fun v => [Event.sendInput (press (hotkeyCode os v)), Event.sleep 20])
         ++ keys.reverse.map (fun v => Event.sendInput (release (hotkeyCode os v)))) =
      keys.map (fun v => press (hotkeyCode os v)) ++
      keys.reverse.map (fun v => release (hotkeyCode os v)) := by
  rw [injections_append]
  congr 1
  · induction keys with
    | nil => rfl
    | cons k rest ih =>
      rw [List.flatMap_cons, injections_append, ih]
      rfl
  · induction keys.reverse with
    | nil => rfl
    | cons k rest ih => simp [injections, ih]

theorem pressedCodes_eq (f : Value → Nat) (a b : List Value) :
    ((a.map (fun v => press (f v)) ++ b.map (fun v => release (f v))).filter
        (fun inp => inp.Ki.DwFlags &&& KEYEVENTF_KEYUP = 0)).map (fun inp => inp.Ki.WVk) =
      a.map f := by
  induction a with
  | nil =>
    induction b with
    | nil => rfl
    | cons v rest _ =>
      simp [release, KEYEVENTF_KEYUP]
  | cons v rest ih =>
    simpa [press, KEYEVENTF_KEYUP] using ih

theorem releasedCodes_eq (f : Value → Nat) (a b : List Value) :
    ((a.map (fun v => press (f v)) ++ b.map (fun v => release (f v))).filter
        (fun inp => inp.Ki.DwFlags &&& KEYEVENTF_KEYUP ≠ 0)).map (fun inp => inp.Ki.WVk) =
      b.map f := by
  induction a with
  | nil =>
    induction b with
    | nil => rfl
    | cons v rest ih =>
      simpa [release, KEYEVENTF_KEYUP] using ih
  | cons v rest ih =>
    simpa [press, KEYEVENTF_KEYUP] using ih

/-- C2: for a non-empty list of valid keys (each a `Key` or a character),
every key resolves without error and `Hotkey` injects exactly 2n records:
the presses of the resolved codes in argument order, then their releases in
reverse order, and returns no error. -/
theorem Hotkey_injections (os : OS) (keys : List Value) (hne : keys ≠ [])
    (hvalid : ∀ v ∈ keys, (∃ k, v = Value.key k) ∨ (∃ c, v = Value.int32 c)) :
    (∀ v ∈ keys, (getKeyOrCharHex os v).2 = none) ∧
    ∃ t, Hotkey os keys [] = some (t, none) ∧
      injections t =
        keys.map (fun v => press (getKeyOrCharHex os v).1) ++
        (keys.map (fun v => release (getKeyOrCharHex os v).1)).reverse ∧
      (injections t).length = 2 * keys.length := by
  constructor
  · intro v hv
    rcases hvalid v hv with ⟨k, rfl⟩ | ⟨c, rfl⟩ <;> rfl
  · refine ⟨_, Hotkey_eq os keys [] hne, ?_, ?_⟩
    · rw [List.nil_append, injections_Hotkey, List.map_reverse]
      rfl
    · rw [List.nil_append, injections_Hotkey]
      simp
      omega

/-- C2 for the two keys CONTROL, C: press(0x11), press(0x43), release(0x43),
release(0x11). -/
theorem Hotkey_injections_witness :
    ∃ t, Hotkey (stubOS 0) [Value.key KEY_CONTROL, Value.key KEY_C] [] = some (t, none) ∧
      injections t = [press 0x11, press 0x43, release 0x43, release 0x11] := by
  obtain ⟨t, h1, h2, _⟩ :=
    (Hotkey_injections (stubOS 0) [Value.key KEY_CONTROL, Value.key KEY_C]
      (List.cons_ne_nil _ _)
      (by
        intro v hv
        simp only [List.mem_cons, List.mem_singleton, List.not_mem_nil, or_false] at hv
        rcases hv with rfl | rfl
        · exact Or.inl ⟨_, rfl⟩
        · exact Or.inl ⟨_, rfl⟩)).2
  refine ⟨t, h1, ?_⟩
  rw [h2]
  decide

/-- C3 as stated fails: on the keys CONTROL, C the codes are pressed in the
order 0x11, 0x43 and released in the order 0x43, 0x11, so the release order is
not the press order. -/
theorem Hotkey_release_order_counterexample :
    ∃ t, Hotkey (stubOS 0) [Value.key KEY_CONTROL, Value.key KEY_C] [] = some (t, none) ∧
      pressedCodes t = [0x11, 0x43] ∧ releasedCodes t = [0x43, 0x11] ∧
      releasedCodes t ≠ pressedCodes t :=
  ⟨_, rfl, by decide, by decide, by decide⟩

/-- C3, amended: for every list of at least two keys, `Hotkey` presses the
resolved codes in argument order and releases them in the reverse of that
order: the last-pressed key is released first and the first-pressed key
last. -/
theorem Hotkey_release_order (os : OS) (keys : List Value) (h2 : 2 ≤ keys.length) :
    ∃ t, Hotkey os keys [] = some (t, none) ∧
      pressedCodes t = keys.map (fun v => (getKeyOrCharHex os v).1) ∧
      releasedCodes t = (pressedCodes t).reverse := by
  have hne : keys ≠ [] := by
    intro e
    rw [e] at h2
    exact absurd h2 (by decide)
  refine ⟨_, Hotkey_eq os keys [] hne, ?_, ?_⟩
  · rw [List.nil_append, pressedCodes, injections_Hotkey]
    exact pressedCodes_eq (hotkeyCode os) keys keys.reverse
  · rw [List.nil_append, pressedCodes, releasedCodes, injections_Hotkey,
      pressedCodes_eq (hotkeyCode os) keys keys.reverse,
      releasedCodes_eq (hotkeyCode os) keys keys.reverse, List.map_reverse]

/-- C3, amended, on the keys CONTROL, SHIFT, ESCAPE: pressed 0x11, 0x10, 0x1B
and released 0x1B, 0x10, 0x11. -/
theorem Hotkey_release_order_witness :
    ∃ t, Hotkey (stubOS 0)
        [Value.key KEY_CONTROL, Value.key KEY_SHIFT, Value.key KEY_ESCAPE] [] = some (t, none) ∧
      pressedCodes t = [0x11, 0x10, 0x1B] ∧ releasedCodes t = [0x1B, 0x10, 0x11] := by
  obtain ⟨t, h1, h2, h3⟩ := Hotkey_release_order (stubOS 0)
    [Value.key KEY_CONTROL, Value.key KEY_SHIFT, Value.key KEY_ESCAPE] (by decide)
  have h4 : pressedCodes t = [0x11, 0x10, 0x1B] := by
    rw [h2]
    decide
  refine ⟨t, h1, h4, ?_⟩
  rw [h3, h4]
  rfl

/-- C5, the code at a failing input: `Hotkey("a")`, whose argument is a string,
makes `getKeyOrCharHex` report its error, yet `Hotkey` presses and releases
code 0 and returns a nil error. -/
theorem Hotkey_invalid_argument_no_error :
    (getKeyOrCharHex (stubOS 0) (Value.str "a")).2 =
      some "getKeyOrCharHex() can only accept characters and Keys" ∧
    (Tap (stubOS 0) (Value.str "a") []).2 = some "Tap() can only accept characters and Keys" ∧
    Hotkey (stubOS 0) [Value.str "a"] [] =
      some ([Event.sendInput (press 0), Event.sleep 20, Event.sendInput (release 0)], none) := by
  decide

/-- C7, the code at a failing input: for the rune U+00E9, whose code point fits
16 bits, `unicodeDown` and `unicodeUp` inject scan code 0xC3A9 (the bytes of
the UTF-8 encoding read as one hexadecimal number), not the code point 0xE9. -/
theorem unicodeScan_not_code_point :
    getHexStringFromRune 0xE9 = ['c', '3', 'a', '9'] ∧
    getIntFromHexString (getHexStringFromRune 0xE9) = 0xC3A9 ∧
    unicodeDown 0xE9 [] =
      [Event.sendInput
        { InputType := 1, Ki := { WVk := 0, WScan := 0xC3A9, DwFlags := 4 } }] ∧
    unicodeUp 0xE9 [] =
      [Event.sendInput
        { InputType := 1, Ki := { WVk := 0, WScan := 0xC3A9, DwFlags := 6 } }] ∧
    toUint16 (getIntFromHexString (getHexStringFromRune 0xE9)) ≠ 0xE9 := by
  decide

/-! ## Key catalog: blocks, aliases, injectivity -/

set_option maxRecDepth 100000 in
/-- Consecutive constants of the enumeration have non-decreasing codes, equal
only at the steps KANA to HANGUL (12 to 13) and HANJA to KANJI (17 to 18). -/
theorem getKeyHex_step : ∀ n : Nat, n < 169 →
    getKeyHex (n : Int) ≤ getKeyHex ((n + 1 : Nat) : Int) ∧
    (getKeyHex (n : Int) = getKeyHex ((n + 1 : Nat) : Int) → n = 12 ∨ n = 17) := by
  decide

/-- The codes are non-decreasing along the enumeration. -/
theorem getKeyHex_mono (n d : Nat) (h : n + d < 170) :
    getKeyHex (n : Int) ≤ getKeyHex ((n + d : Nat) : Int) := by
  induction d with
  | zero => exact Nat.le_refl _
  | succ d ih =>
    exact Nat.le_trans (ih (by omega)) (getKeyHex_step (n + d) (by omega)).1

/-- Two enumerated constants `n < m` with one code are neighbours, at 12 or
at 17. -/
theorem getKeyHex_eq_of_lt (n m : Nat) (hlt : n < m) (hm : m < 170)
    (he : getKeyHex (n : Int) = getKeyHex (m : Int)) :
    m = n + 1 ∧ (n = 12 ∨ n = 17) := by
  have h1 := getKeyHex_step n (by omega)
  have h2 : getKeyHex (((n + 1) + (m - (n + 1)) : Nat) : Int) = getKeyHex (m : Int) := by
    congr 2
    omega
  have h3 := getKeyHex_mono (n + 1) (m - (n + 1)) (by omega)
  rw [h2] at h3
  have h4 : getKeyHex (n : Int) = getKeyHex ((n + 1 : Nat) : Int) := by omega
  have h5 := h1.2 h4
  refine ⟨?_, h5⟩
  by_contra hne
  have h6 := getKeyHex_step (n + 1) (by omega)
  have h7 : getKeyHex (((n + 2) + (m - (n + 2)) : Nat) : Int) = getKeyHex (m : Int) := by
    congr 2
    omega
  have h8 := getKeyHex_mono (n + 2) (m - (n + 2)) (by omega)
  rw [h7] at h8
  have h9 : getKeyHex ((n + 1 : Nat) : Int) = getKeyHex ((n + 1 + 1 : Nat) : Int) := by
    have : getKeyHex ((n + 1 + 1 : Nat) : Int) = getKeyHex ((n + 2 : Nat) : Int) := rfl
    omega
  have h10 := h6.2 h9
  omega

set_option maxRecDepth 100000 in
/-- C11: the catalog is arithmetic on its contiguous blocks: letters
`KEY_A + i` give `0x41 + i` for `i < 26`, digits `KEY_0 + i` give `0x30 + i`
for `i < 10`, function keys `KEY_F1 + i` give `0x70 + i` for `i < 24`. -/
theorem getKeyHex_blocks :
    (∀ i : Nat, i < 26 → getKeyHex (KEY_A + (i : Int)) = 0x41 + i) ∧
    (∀ i : Nat, i < 10 → getKeyHex (KEY_0 + (i : Int)) = 0x30 + i) ∧
    (∀ i : Nat, i < 24 → getKeyHex (KEY_F1 + (i : Int)) = 0x70 + i) := by
  decide

/-- C11 at the ends of the blocks: `KEY_Z`, `KEY_9` and `KEY_F24`. -/
theorem getKeyHex_blocks_witness :
    getKeyHex (KEY_A + 25) = 0x5A ∧ getKeyHex (KEY_0 + 9) = 0x39 ∧
    getKeyHex (KEY_F1 + 23) = 0x87 ∧
    KEY_A + 25 = KEY_Z ∧ KEY_0 + 9 = KEY_9 ∧ KEY_F1 + 23 = KEY_F24 :=
  ⟨getKeyHex_blocks.1 25 (by decide), getKeyHex_blocks.2.1 9 (by decide),
   getKeyHex_blocks.2.2 23 (by decide), by decide, by decide, by decide⟩

/-- C12: the documented aliases share one code: `KEY_KANA` and `KEY_HANGUL`
both give 0x15, `KEY_HANJA` and `KEY_KANJI` both give 0x19, although the
constants themselves are distinct. -/
theorem getKeyHex_aliases :
    getKeyHex KEY_KANA = getKeyHex KEY_HANGUL ∧ getKeyHex KEY_HANJA = getKeyHex KEY_KANJI ∧
    getKeyHex KEY_KANA = 0x15 ∧ getKeyHex KEY_HANJA = 0x19 ∧
    KEY_KANA ≠ KEY_HANGUL ∧ KEY_HANJA ≠ KEY_KANJI := by
  decide

/-- Injectivity up to the aliases, on the indices of the enumeration. -/
theorem getKeyHex_eq_iff_nat (n m : Nat) (hn : n < 170) (hm : m < 170) (hne : n ≠ m) :
    getKeyHex (n : Int) = getKeyHex (m : Int) ↔
      ((n = 12 ∧ m = 13) ∨ (n = 13 ∧ m = 12) ∨ (n = 17 ∧ m = 18) ∨ (n = 18 ∧ m = 17)) := by
  constructor
  · intro he
    rcases Nat.lt_or_gt_of_ne hne with hlt | hgt
    · have := getKeyHex_eq_of_lt n m hlt hm he
      omega
    · have := getKeyHex_eq_of_lt m n hgt hn he.symm
      omega
  · rintro (⟨rfl, rfl⟩ | ⟨rfl, rfl⟩ | ⟨rfl, rfl⟩ | ⟨rfl, rfl⟩) <;> decide

/-- Injectivity up to the aliases, on integers between 0 and 169. -/
theorem getKeyHex_eq_iff_int (a b : Int) (a0 : 0 ≤ a) (a1 : a ≤ 169) (b0 : 0 ≤ b)
    (b1 : b ≤ 169) (hne : a ≠ b) :
    getKeyHex a = getKeyHex b ↔
      ((a = 12 ∧ b = 13) ∨ (a = 13 ∧ b = 12) ∨ (a = 17 ∧ b = 18) ∨ (a = 18 ∧ b = 17)) := by
  have e1 : ((Int.toNat a : Nat) : Int) = a := Int.toNat_of_nonneg a0
  have e2 : ((Int.toNat b : Nat) : Int) = b := Int.toNat_of_nonneg b0
  have h := getKeyHex_eq_iff_nat (Int.toNat a) (Int.toNat b) (by omega) (by omega) (by omega)
  rw [e1, e2] at h
  constructor
  · intro he
    have := h.mp he
    omega
  · intro hc
    apply h.mpr
    omega

/-- C16: on the enumerated keys `getKeyHex` is injective except for the two
alias pairs: distinct enumerated keys have the same code exactly when they are
`KEY_KANA` and `KEY_HANGUL`, or `KEY_HANJA` and `KEY_KANJI`, in either
order. -/
theorem getKeyHex_injective_up_to_aliases (k1 k2 : Key)
    (h1 : KEY_CANCEL ≤ k1 ∧ k1 ≤ KEY_OEM_CLEAR) (h2 : KEY_CANCEL ≤ k2 ∧ k2 ≤ KEY_OEM_CLEAR)
    (hne : k1 ≠ k2) :
    getKeyHex k1 = getKeyHex k2 ↔
      ((k1 = KEY_KANA ∧ k2 = KEY_HANGUL) ∨ (k1 = KEY_HANGUL ∧ k2 = KEY_KANA) ∨
       (k1 = KEY_HANJA ∧ k2 = KEY_KANJI) ∨ (k1 = KEY_KANJI ∧ k2 = KEY_HANJA)) :=
  getKeyHex_eq_iff_int k1 k2 h1.1 h1.2 h2.1 h2.2 hne

/-- C16 at the pair `KEY_KANA`, `KEY_HANGUL` (equal codes) and at the pair
`KEY_A`, `KEY_B` (different codes). -/
theorem getKeyHex_injective_up_to_aliases_witness :
    getKeyHex KEY_KANA = getKeyHex KEY_HANGUL ∧ getKeyHex KEY_A ≠ getKeyHex KEY_B := by
  constructor
  · exact (getKeyHex_injective_up_to_aliases KEY_KANA KEY_HANGUL (by decide) (by decide)
      (by decide)).mpr (Or.inl ⟨rfl, rfl⟩)
  · intro he
    have := (getKeyHex_injective_up_to_aliases KEY_A KEY_B (by decide) (by decide)
      (by decide)).mp he
    revert this
    decide

/-! ## Timing of the traces -/

/-- A delay in front of a trace has no bearing on either separation
property, and neither has an injection followed by a delay. -/
theorem allAdjacent_sleep_cons (R : Event → Event → Bool) (ms : Nat) (l : Trace)
    (hR : ∀ y, R (Event.sleep ms) y = true) :
    allAdjacent R (Event.sleep ms :: l) = allAdjacent R l := by
  cases l with
  | nil => rfl
  | cons y t => simp [allAdjacent, hR]

theorem delaySeparated_cons (inp : KEYBD_INPUT) (ms : Nat) (l : Trace)
    (h : delaySeparated l) :
    delaySeparated (Event.sendInput inp :: Event.sleep ms :: l) := by
  unfold delaySeparated at *
  rw [allAdjacent, allAdjacent_sleep_cons _ _ _ (by simp [isInjection]), h]
  rfl

theorem delaySeparatedUpToReleases_cons (inp : KEYBD_INPUT) (ms : Nat) (l : Trace)
    (h : delaySeparatedUpToReleases l) :
    delaySeparatedUpToReleases (Event.sendInput inp :: Event.sleep ms :: l) := by
  unfold delaySeparatedUpToReleases at *
  rw [allAdjacent, allAdjacent_sleep_cons _ _ _ (by simp [isInjection]), h]
  rfl

theorem delaySeparatedUpToReleases_releases (f : Value → Nat) (l : List Value) :
    delaySeparatedUpToReleases (l.map (fun v => Event.sendInput (release (f v)))) := by
  unfold delaySeparatedUpToReleases
  induction l with
  | nil => rfl
  | cons v rest ih =>
    cases rest with
    | nil => rfl
    | cons w rest2 =>
      simp only [List.map_cons] at ih ⊢
      rw [allAdjacent, ih]
      simp [isKeyUp, release, KEYEVENTF_KEYUP]

theorem delaySeparatedUpToReleases_Hotkey (os : OS) (keys : List Value) :
    delaySeparatedUpToReleases
      (keys.flatMap (fun v => [Event.sendInput (press (hotkeyCode os v)), Event.sleep 20])
         ++ keys.reverse.map (fun v => Event.sendInput (release (hotkeyCode os v)))) := by
  generalize keys.reverse = rs
  induction keys with
  | nil => exact delaySeparatedUpToReleases_releases (hotkeyCode os) rs
  | cons k rest ih =>
    rw [List.flatMap_cons]
    exact delaySeparatedUpToReleases_cons _ _ _ ih

theorem delaySeparated_typeLoop (rs : List Int) :
    delaySeparated (rs.flatMap (fun c =>
      [Event.sendInput (unicodePress c), Event.sleep 20,
       Event.sendInput (unicodeRelease c), Event.sleep 20])) := by
  induction rs with
  | nil => rfl
  | cons c rest ih =>
    rw [List.flatMap_cons]
    exact delaySeparated_cons _ _ _ (delaySeparated_cons _ _ _ ih)

theorem delaySeparatedUpToReleases_Tap_char (os : OS) (c : Int) :
    delaySeparatedUpToReleases (Tap os (Value.int32 c) []).1 := by
  simp only [Tap]
  generalize toUint16 (vkKeyScanExA os (toUint8 c) (getKeyboardLayout os 0)) = hx
  by_cases h1 : hx &&& 0x100 = 0x100 <;> by_cases h2 : hx &&& 0x200 = 0x200 <;>
    by_cases h3 : hx &&& 0x400 = 0x400 <;>
    simp [h1, h2, h3, KeyDown, KeyUp, sleep20, delaySeparatedUpToReleases, allAdjacent,
      isInjection, isKeyUp, KEYEVENTF_KEYUP]

theorem fixedDelays_Tap (os : OS) (v : Value) : fixedDelays (Tap os v []).1 := by
  intro ms hmem
  cases v with
  | key k => simpa [Tap, KeyDown, KeyUp, sleep20] using hmem
  | int32 c =>
    simp only [Tap] at hmem
    generalize toUint16 (vkKeyScanExA os (toUint8 c) (getKeyboardLayout os 0)) = hx at hmem
    by_cases h1 : hx &&& 0x100 = 0x100 <;> by_cases h2 : hx &&& 0x200 = 0x200 <;>
      by_cases h3 : hx &&& 0x400 = 0x400 <;>
      simpa [h1, h2, h3, KeyDown, KeyUp, sleep20] using hmem
  | int n => simp [Tap] at hmem
  | str s => simp [Tap] at hmem
  | nil => simp [Tap] at hmem

theorem fixedDelays_typeText (text : String) : fixedDelays (typeText text []) := by
  intro ms hmem
  rw [typeText, typeLoop_eq, List.nil_append] at hmem
  obtain ⟨c, _, hc⟩ := List.mem_flatMap.mp hmem
  simpa using hc

theorem fixedDelays_Hotkey (os : OS) (keys : List Value) :
    fixedDelays
      (keys.flatMap (fun v => [Event.sendInput (press (hotkeyCode os v)), Event.sleep 20])
         ++ keys.reverse.map (fun v => Event.sendInput (release (hotkeyCode os v)))) := by
  intro ms hmem
  rcases List.mem_append.mp hmem with h | h
  · obtain ⟨c, _, hc⟩ := List.mem_flatMap.mp h
    simpa using hc
  · simp at h

/-- An injection followed by a delay in front of a trace has no bearing on
whether its consecutive injections are separated by delays. -/
theorem delaySeparated_cons_iff (inp : KEYBD_INPUT) (ms : Nat) (l : Trace) :
    delaySeparated (Event.sendInput inp :: Event.sleep ms :: l) ↔ delaySeparated l := by
  unfold delaySeparated
  rw [allAdjacent, allAdjacent_sleep_cons _ _ _ (by simp [isInjection])]
  simp [isInjection]

/-- A run of presses, each followed by a delay, in front of a trace has no
bearing on whether its consecutive injections are separated by delays. -/
theorem delaySeparated_presses_append {α : Type} (f : α → Nat) (ps : List α) (X : Trace) :
    delaySeparated
      (ps.flatMap (fun v => [Event.sendInput (press (f v)), Event.sleep 20]) ++ X) ↔
    delaySeparated X := by
  induction ps with
  | nil => rfl
  | cons p rest ih =>
    rw [List.flatMap_cons, List.append_assoc]
    exact (delaySeparated_cons_iff _ _ _).trans ih

/-- A run of releases with no delay in it is delay-separated exactly when it
has at most one release. -/
theorem delaySeparated_releases_iff {α : Type} (f : α → Nat) (rs : List α) :
    delaySeparated (rs.map (fun v => Event.sendInput (release (f v)))) ↔ rs.length ≤ 1 := by
  cases rs with
  | nil => simp [delaySeparated, allAdjacent]
  | cons a rest =>
    cases rest with
    | nil => simp [delaySeparated, allAdjacent]
    | cons b rest2 => simp [delaySeparated, allAdjacent, isInjection]

/-- The whole trace of `Tap` on a character with resolution `hx`: a press and
a delay for each required modifier, in the order SHIFT, CONTROL, MENU; then
press(hx), delay, release(hx), delay; then the releases of the same modifiers,
with no delay between or after them. -/
theorem Tap_char_eq (os : OS) (c : Int) :
    (Tap os (Value.int32 c) []).1 =
      (modifierCodes ((getKeyOrCharHex os (Value.int32 c)).1)).flatMap
        (fun m => [Event.sendInput (press m), Event.sleep 20]) ++
      ([Event.sendInput (press ((getKeyOrCharHex os (Value.int32 c)).1)), Event.sleep 20,
        Event.sendInput (release ((getKeyOrCharHex os (Value.int32 c)).1)), Event.sleep 20] ++
       (modifierCodes ((getKeyOrCharHex os (Value.int32 c)).1)).map
        (fun m => Event.sendInput (release m))) := by
  have hS : getKeyHex KEY_SHIFT = 0x10 := by decide
  have hC : getKeyHex KEY_CONTROL = 0x11 := by decide
  have hM : getKeyHex KEY_MENU = 0x12 := by decide
  simp only [hotkeyCode, getKeyOrCharHex, Tap, hS, hC, hM]
  generalize toUint16 (vkKeyScanExA os (toUint8 c) (getKeyboardLayout os 0)) = hx
  by_cases h1 : hx &&& 0x100 = 0x100 <;> by_cases h2 : hx &&& 0x200 = 0x200 <;>
    by_cases h3 : hx &&& 0x400 = 0x400 <;>
    simp [h1, h2, h3, modifierCodes, KeyDown, KeyUp, sleep20, press, release]

/-- C13 as stated fails: `Hotkey(CONTROL, C)` performs press(0x11), delay,
press(0x43), delay, release(0x43), release(0x11): the two releases are
adjacent. `Tap` of a character resolved to 0x341 (shift and control) releases
SHIFT and CONTROL without a delay in between. -/
theorem delaySeparated_counterexample :
    Hotkey (stubOS 0) [Value.key KEY_CONTROL, Value.key KEY_C] [] =
      some ([Event.sendInput (press 0x11), Event.sleep 20,
             Event.sendInput (press 0x43), Event.sleep 20,
             Event.sendInput (release 0x43), Event.sendInput (release 0x11)], none) ∧
    ¬ delaySeparated
      [Event.sendInput (press 0x11), Event.sleep 20,
       Event.sendInput (press 0x43), Event.sleep 20,
       Event.sendInput (release 0x43), Event.sendInput (release 0x11)] ∧
    (Tap (stubOS 0x341) (Value.int32 65) []).1 =
      [Event.sendInput (press 0x10), Event.sleep 20,
       Event.sendInput (press 0x11), Event.sleep 20,
       Event.sendInput (press 0x341), Event.sleep 20,
       Event.sendInput (release 0x341), Event.sleep 20,
       Event.sendInput (release 0x10), Event.sendInput (release 0x11)] ∧
    ¬ delaySeparated (Tap (stubOS 0x341) (Value.int32 65) []).1 := by
  decide

/-- C13, amended: in the trace of `Type` and of `Tap` on a `Key` every two
consecutive injections are separated by a delay.  The trace of `Tap` on a
character with resolution `hx` is a press and a delay for each required
modifier (SHIFT, CONTROL, MENU), then press(hx), delay, release(hx), delay,
then the releases of the same modifiers with no delay between or after them:
its consecutive injections are all separated by a delay if and only if at most
one modifier is required.  The trace of `Hotkey` on a non-empty list is a
press and a delay for each key in argument order, then the releases in reverse
order with no delay between or after them: its consecutive injections are all
separated by a delay if and only if there is exactly one key.  `Tap` on a
value that is neither a `Key` nor a character performs nothing.  In all these
traces two injections are adjacent only when both are key releases, and every
delay is the fixed one of 20 ms. -/
theorem delaySeparated_amended (os : OS) (text : String) (k : Key) (c : Int)
    (v : Value) (keys : List Value) :
    (delaySeparated (typeText text []) ∧ fixedDelays (typeText text [])) ∧
    (delaySeparated (Tap os (Value.key k) []).1 ∧ fixedDelays (Tap os (Value.key k) []).1) ∧
    ((∀ k2, v ≠ Value.key k2) → (∀ c2, v ≠ Value.int32 c2) → (Tap os v []).1 = []) ∧
    ((Tap os (Value.int32 c) []).1 =
        (modifierCodes (getKeyOrCharHex os (Value.int32 c)).1).flatMap
          (fun m => [Event.sendInput (press m), Event.sleep 20]) ++
        ([Event.sendInput (press (getKeyOrCharHex os (Value.int32 c)).1), Event.sleep 20,
          Event.sendInput (release (getKeyOrCharHex os (Value.int32 c)).1), Event.sleep 20] ++
         (modifierCodes (getKeyOrCharHex os (Value.int32 c)).1).map
          (fun m => Event.sendInput (release m))) ∧
      (delaySeparated (Tap os (Value.int32 c) []).1 ↔
        (modifierCodes (getKeyOrCharHex os (Value.int32 c)).1).length ≤ 1) ∧
      delaySeparatedUpToReleases (Tap os (Value.int32 c) []).1 ∧
      fixedDelays (Tap os (Value.int32 c) []).1) ∧
    (keys ≠ [] → ∃ t, Hotkey os keys [] = some (t, none) ∧
      t = keys.flatMap (fun v =>
            [Event.sendInput (press (getKeyOrCharHex os v).1), Event.sleep 20]) ++
          keys.reverse.map (fun v => Event.sendInput (release (getKeyOrCharHex os v).1)) ∧
      (delaySeparated t ↔ keys.length = 1) ∧
      delaySeparatedUpToReleases t ∧ fixedDelays t) := by
  refine ⟨⟨?_, fixedDelays_typeText text⟩, ⟨?_, fixedDelays_Tap os _⟩, ?_,
    ⟨Tap_char_eq os c, ?_, delaySeparatedUpToReleases_Tap_char os c, fixedDelays_Tap os _⟩, ?_⟩
  · rw [typeText, typeLoop_eq, List.nil_append]
    exact delaySeparated_typeLoop _
  · simp [Tap, KeyDown, KeyUp, sleep20, delaySeparated, allAdjacent, isInjection]
  · intro hk hc
    cases v with
    | key k2 => exact absurd rfl (hk k2)
    | int32 c2 => exact absurd rfl (hc c2)
    | int n => rfl
    | str s => rfl
    | nil => rfl
  · rw [Tap_char_eq os c, delaySeparated_presses_append (fun m => m)]
    show delaySeparated (_ :: _ :: _ :: _ :: _) ↔ _
    rw [delaySeparated_cons_iff, delaySeparated_cons_iff]
    exact delaySeparated_releases_iff (fun m => m) _
  · intro hne
    refine ⟨_, Hotkey_eq os keys [] hne, ?_, ?_, ?_, ?_⟩
    · rw [List.nil_append]
      rfl
    · rw [List.nil_append, delaySeparated_presses_append (hotkeyCode os),
        delaySeparated_releases_iff (hotkeyCode os), List.length_reverse]
      have : 0 < keys.length := List.length_pos.mpr hne
      omega
    · rw [List.nil_append]
      exact delaySeparatedUpToReleases_Hotkey os keys
    · rw [List.nil_append]
      exact fixedDelays_Hotkey os keys

/-- C13, amended, on `Hotkey(CONTROL, C)`: press(0x11), delay, press(0x43),
delay, release(0x43), release(0x11); the two releases are adjacent, so the
trace is not delay-separated, and they are the only adjacent injections. -/
theorem delaySeparated_amended_witness :
    ∃ t, Hotkey (stubOS 0) [Value.key KEY_CONTROL, Value.key KEY_C] [] = some (t, none) ∧
      t = [Event.sendInput (press 0x11), Event.sleep 20,
           Event.sendInput (press 0x43), Event.sleep 20,
           Event.sendInput (release 0x43), Event.sendInput (release 0x11)] ∧
      ¬ delaySeparated t ∧ delaySeparatedUpToReleases t ∧ fixedDelays t := by
  obtain ⟨t, h1, h2, h3, h4, h5⟩ :=
    (delaySeparated_amended (stubOS 0) "ab" KEY_A 65 Value.nil
      [Value.key KEY_CONTROL, Value.key KEY_C]).2.2.2.2 (List.cons_ne_nil _ _)
  refine ⟨t, h1, ?_, ?_, h4, h5⟩
  · rw [h2]
    decide
  · rw [h3]
    decide

/-! ## Character resolution in Tap, recursion of Hotkey, ASCII text -/

/-- On a non-empty list the activations of `Hotkey` receive `keys`, `keys[1:]`,
and so on down to the last one-element tail. -/
theorem HotkeyCalls_eq (keys : List Value) (hne : keys ≠ []) :
    HotkeyCalls keys = some ((List.range keys.length).map (fun i => keys.drop i)) := by
  induction keys with
  | nil => exact absurd rfl hne
  | cons k0 rest ih =>
    cases rest with
    | nil => rfl
    | cons k1 rest2 =>
      rw [HotkeyCalls]
      simp only [List.length_cons, gt_iff_lt, Nat.lt_add_left_iff_pos, Nat.zero_lt_succ,
        if_true]
      rw [ih (List.cons_ne_nil _ _)]
      simp only [List.length_cons]
      rw [List.range_succ_eq_map (rest2.length + 1)]
      simp [Function.comp_def]

/-- C17: `Hotkey` fails with an out-of-range access exactly on the empty key
list.  For a non-empty list the call returns, with activations on `keys`,
`keys[1:]`, ..., exactly `len(keys)` of them, each on a non-empty list, so
`keys[0]` is in range at every level; on the empty list `keys[0]` is out of
range and the call panics instead of returning. -/
theorem Hotkey_panics_iff_empty (os : OS) (keys : List Value) (t : Trace) :
    (Hotkey os keys t = none ↔ keys = []) ∧
    (HotkeyCalls keys = none ↔ keys = []) ∧
    (keys ≠ [] →
      (∃ r, Hotkey os keys t = some r) ∧
      ∃ calls, HotkeyCalls keys = some calls ∧ calls.length = keys.length ∧
        (∀ c ∈ calls, c ≠ []) ∧
        calls = (List.range keys.length).map (fun i => keys.drop i)) := by
  refine ⟨?_, ?_, ?_⟩
  · constructor
    · intro h
      by_contra hne
      rw [Hotkey_eq os keys t hne] at h
      exact Option.noConfusion h
    · rintro rfl
      rfl
  · constructor
    · intro h
      by_contra hne
      rw [HotkeyCalls_eq keys hne] at h
      exact Option.noConfusion h
    · rintro rfl
      rfl
  · intro hne
    refine ⟨⟨_, Hotkey_eq os keys t hne⟩, _, HotkeyCalls_eq keys hne, by simp, ?_, rfl⟩
    intro c hc
    obtain ⟨i, hi, rfl⟩ := List.mem_map.mp hc
    have hi2 : i < keys.length := List.mem_range.mp hi
    intro hd
    have := congrArg List.length hd
    simp at this
    omega

/-- C17 on `Hotkey(CONTROL, C)`: two activations, on `[CONTROL, C]` and on
`[C]`, and the call returns. -/
theorem Hotkey_panics_iff_empty_witness :
    (∃ r, Hotkey (stubOS 0) [Value.key KEY_CONTROL, Value.key KEY_C] [] = some r) ∧
    HotkeyCalls [Value.key KEY_CONTROL, Value.key KEY_C] =
      some [[Value.key KEY_CONTROL, Value.key KEY_C], [Value.key KEY_C]] := by
  obtain ⟨h1, calls, h2, _, _, h3⟩ :=
    (Hotkey_panics_iff_empty (stubOS 0) [Value.key KEY_CONTROL, Value.key KEY_C] []).2.2
      (List.cons_ne_nil _ _)
  refine ⟨h1, ?_⟩
  rw [h2, h3]
  rfl

/-- C14, the code at a failing input: with the resolver answering 0x0141 for
the character `A` (virtual-key code 0x41 in the low byte, shift in the high
byte), `Tap` presses and releases code 0x141, not 0x41: the modifier bits
stay in the injected key code. -/
theorem Tap_char_code_keeps_modifier_bits :
    (getKeyOrCharHex (stubOS 0x141) (Value.int32 65)).1 = 0x141 ∧
    0x141 % 256 = 0x41 ∧ 0x141 / 256 = 1 ∧
    Tap (stubOS 0x141) (Value.int32 65) [] =
      ([Event.sendInput (press 0x10), Event.sleep 20,
        Event.sendInput (press 0x141), Event.sleep 20,
        Event.sendInput (release 0x141), Event.sleep 20,
        Event.sendInput (release 0x10)], none) ∧
    press 0x141 ≠ press 0x41 := by
  decide

/-- C15, the code at a failing input: with the resolver answering the
sentinel -1 (0xFFFF as `uint16`), `Tap` returns no error but presses SHIFT,
CONTROL and MENU around the press and release of 0xFFFF, because the bits
0x100, 0x200 and 0x400 of the sentinel are set. -/
theorem Tap_unmappable_presses_modifiers :
    vkKeyScanExA (stubOS 0xFFFF) (toUint8 0x20AC) 0 = -1 ∧
    vkKeyScanExA (stubOS 0xFFFFFFFFFFFFFFFF) (toUint8 0x20AC) 0 = -1 ∧
    (getKeyOrCharHex (stubOS 0xFFFF) (Value.int32 0x20AC)).1 = 0xFFFF ∧
    Tap (stubOS 0xFFFF) (Value.int32 0x20AC) [] =
      ([Event.sendInput (press 0x10), Event.sleep 20,
        Event.sendInput (press 0x11), Event.sleep 20,
        Event.sendInput (press 0x12), Event.sleep 20,
        Event.sendInput (press 0xFFFF), Event.sleep 20,
        Event.sendInput (release 0xFFFF), Event.sleep 20,
        Event.sendInput (release 0x10), Event.sendInput (release 0x11),
        Event.sendInput (release 0x12)], none) ∧
    injections (Tap (stubOS 0xFFFF) (Value.int32 0x20AC) []).1 ≠
      [press 0xFFFF, release 0xFFFF] := by
  decide

/-- The round trip through the hexadecimal string is the identity on the
ASCII range. -/
theorem hex_roundtrip_ascii : ∀ n : Nat, n < 128 →
    getIntFromHexString (getHexStringFromRune (n : Int)) = (n : Int) := by
  decide

/-- C18: for every ASCII character `c` (0 <= c < 0x80),
`getIntFromHexString(getHexStringFromRune(c)) = c`, so `unicodeDown(c)` and
`unicodeUp(c)` inject scan code exactly `c`. -/
theorem unicode_ascii_scan (c : Int) (h0 : 0 ≤ c) (h1 : c < 0x80) :
    getIntFromHexString (getHexStringFromRune c) = c ∧
    unicodeDown c [] =
      [Event.sendInput { InputType := 1,
                         Ki := { WVk := 0, WScan := c.toNat, DwFlags := 4 } }] ∧
    unicodeUp c [] =
      [Event.sendInput { InputType := 1,
                         Ki := { WVk := 0, WScan := c.toNat, DwFlags := 6 } }] := by
  have e : ((c.toNat : Nat) : Int) = c := Int.toNat_of_nonneg h0
  have hr : getIntFromHexString (getHexStringFromRune c) = c := by
    have := hex_roundtrip_ascii c.toNat (by omega)
    rwa [e] at this
  have hs : toUint16 c = c.toNat := by
    unfold toUint16
    congr 1
    omega
  refine ⟨hr, ?_, ?_⟩
  · simp only [unicodeDown, hr, hs]
    rfl
  · simp only [unicodeUp, hr, hs]
    rfl

/-- C18 at the character `a`: scan code 97. -/
theorem unicode_ascii_scan_witness :
    getIntFromHexString (getHexStringFromRune 97) = 97 ∧
    unicodeDown 97 [] =
      [Event.sendInput { InputType := 1, Ki := { WVk := 0, WScan := 97, DwFlags := 4 } }] :=
  ⟨(unicode_ascii_scan 97 (by decide) (by decide)).1,
   (unicode_ascii_scan 97 (by decide) (by decide)).2.1⟩

/-- C19: `Tap` on a character depends on the character only through its low
eight bits (`uint8` of it, its value modulo 256): two runes with the same
residue give, under the same resolver, the same trace and the same result;
so does the character case of `getKeyOrCharHex`. -/
theorem Tap_char_mod_256 (os : OS) (c c2 : Int) (t : Trace) (h : c % 256 = c2 % 256) :
    Tap os (Value.int32 c) t = Tap os (Value.int32 c2) t ∧
    getKeyOrCharHex os (Value.int32 c) = getKeyOrCharHex os (Value.int32 c2) := by
  have hu : toUint8 c = toUint8 c2 := by
    unfold toUint8
    rw [h]
  constructor
  · simp only [Tap, hu]
  · simp only [getKeyOrCharHex, hu]

/-- C19 on the runes 65 and 321 (= 65 + 256), under a resolver that answers
by the character it is given. -/
theorem Tap_char_mod_256_witness :
    Tap { sysGetKeyboardLayout := fun _ => 0, sysVkKeyScanExA := fun ch _ => ch }
        (Value.int32 65) [] =
      Tap { sysGetKeyboardLayout := fun _ => 0, sysVkKeyScanExA := fun ch _ => ch }
        (Value.int32 321) [] :=
  (Tap_char_mod_256 _ 65 321 [] (by decide)).1

end keyboard
